import Mathlib

/-!
Shallow embedding of the OPD token-allocation engine
(`src/core/tokenAllocator.ts`, `src/core/slotManager.ts`,
`src/core/priorityRules.ts`, `src/core/delayHandler.ts`,
`src/store/memoryStore.ts`) together with theorems settling the frozen
claims about it.

Modelling conventions:
* String entity ids (uuids, slot ids) become `Nat`; `Date` timestamps become
  a `Nat` clock carried in the store and bumped at each token creation.
* The JS `Map`s of the memory store become association lists ordered by
  insertion (matching `Map` iteration order, which `getSlotsByDoctor` and
  `getAllSlots` rely on).
* JS objects are mutable and aliased.  The manager functions fetch a slot
  object, mutate it in place (the store immediately sees the mutation,
  since `getSlot` returns the stored reference), and `store.updateSlot`
  replaces the stored entry by `{ ...stored, ...updates }`.  The embedding
  mirrors each store write explicitly; in particular `addTokenToSlot` and
  `removeTokenFromSlot` end with `store.updateSlot(slotId, slot)` where the
  local `slot` object still carries the status from before
  `updateSlotStatus` ran, because `updateSlotStatus` wrote a *fresh* merged
  object into the map and the local variable kept pointing at the old one.
  That final full-object write is therefore modelled as re-storing the
  fetched object (with the stale status), exactly as the source behaves.
* `Array.prototype.sort` with a comparator `c` is a stable sort; it is
  modelled by a stable insertion sort with the boolean relation
  `le a b := c a b ≤ 0`.
* Operations that `throw` at their entry guard (`Token not found`,
  `Slot ${slotId} not found` in `redistributePatientsFromSlot`) return
  `Option`/`none`.  Interior manager calls whose "slot not found" branch is
  unreachable under the hypotheses of every theorem below (`addTokenToSlot`,
  `addToWaitlist` on a slot that was just looked up) are modelled as
  identity on that branch.
-/

namespace OPD

/-- `PatientType` from `src/types/enums.ts` (file referenced throughout the
sources; its five members appear verbatim in `priorityRules.ts`). -/
inductive PatientType where
  | EMERGENCY
  | PAID_PRIORITY
  | FOLLOW_UP
  | ONLINE_BOOKING
  | WALK_IN
deriving DecidableEq, Repr

/-- `TokenStatus` from `src/types/enums.ts`. -/
inductive TokenStatus where
  | PENDING
  | ALLOCATED
  | WAITLISTED
  | COMPLETED
  | CANCELLED
  | NO_SHOW
deriving DecidableEq, Repr

/-- `SlotStatus` from `src/types/enums.ts`. -/
inductive SlotStatus where
  | AVAILABLE
  | FULL
  | OVERFLOW
  | CLOSED
deriving DecidableEq, Repr, Inhabited

/-- `Token` from `src/types/domain.ts`. -/
structure Token where
  id : Nat
  patientName : String
  patientType : PatientType
  priority : Int
  doctorId : Nat
  slotId : Option Nat := none
  status : TokenStatus
  createdAt : Nat
  allocatedAt : Option Nat := none
  bumpCount : Nat
deriving DecidableEq, Repr

/-- `TimeSlot` from `src/types/domain.ts` (start/end times as minutes). -/
structure TimeSlot where
  id : Nat
  doctorId : Nat
  startTime : Nat
  endTime : Nat
  maxCapacity : Nat
  currentLoad : Nat
  status : SlotStatus
  allocatedTokens : List Nat
  waitlist : List Nat
deriving DecidableEq, Repr, Inhabited

/-- The shared in-memory store (`src/store/memoryStore.ts`), plus the id
counter standing in for `uuidv4()` and the clock standing in for
`new Date()`.  Doctors are omitted: none of the verified operations reads
the doctor entity itself (only `slot.doctorId`). -/
structure Store where
  slots : List TimeSlot
  tokens : List Token
  nextId : Nat
  now : Nat
deriving DecidableEq, Repr

namespace Store

/-- `store.getSlot(id)`. -/
def getSlot (S : Store) (id : Nat) : Option TimeSlot :=
  S.slots.find? (fun s => s.id == id)

/-- `store.getToken(id)`. -/
def getToken (S : Store) (id : Nat) : Option Token :=
  S.tokens.find? (fun t => t.id == id)

/-- `store.getSlotsByDoctor(doctorId)` — all stored slots of the doctor, in
store (insertion) order. -/
def getSlotsByDoctor (S : Store) (doctorId : Nat) : List TimeSlot :=
  S.slots.filter (fun s => s.doctorId == doctorId)

/-- The heap effect of writing (or in-place mutating) the slot object keyed
by `id`: `store.updateSlot(id, full-object)` and an in-place mutation of the
fetched reference both leave the map binding `id` to the new object value.
A missing id is a no-op, as in `updateSlot`. -/
def setSlot (S : Store) (id : Nat) (s : TimeSlot) : Store :=
  { S with slots := S.slots.map (fun t => if t.id == id then s else t) }

/-- `store.updateSlot(id, updates)` with a *partial* update object,
modelled by the field transformer `f` (`{ ...stored, ...updates }`). -/
def updateSlotWith (S : Store) (id : Nat) (f : TimeSlot → TimeSlot) : Store :=
  { S with slots := S.slots.map (fun t => if t.id == id then f t else t) }

/-- `store.addToken(token)` — `Map.set` on a fresh key appends. -/
def addToken (S : Store) (t : Token) : Store :=
  { S with tokens := S.tokens ++ [t] }

/-- `store.updateToken(id, updates)`, updates modelled by `f`. -/
def updateToken (S : Store) (id : Nat) (f : Token → Token) : Store :=
  { S with tokens := S.tokens.map (fun t => if t.id == id then f t else t) }

end Store

/-! ### Priority rules (`src/core/priorityRules.ts`) -/

/-- `PRIORITY_SCORES` / `getPriorityScore`. -/
def getPriorityScore : PatientType → Int
  | .EMERGENCY => 100
  | .PAID_PRIORITY => 80
  | .FOLLOW_UP => 60
  | .ONLINE_BOOKING => 40
  | .WALK_IN => 20

/-- `canBump(bumperType, bumpedType)`. -/
def canBump (bumperType bumpedType : PatientType) : Bool :=
  if bumperType = PatientType.EMERGENCY then true
  else if bumperType = PatientType.PAID_PRIORITY then
    bumpedType = PatientType.WALK_IN
  else false

/-- `compareTokenPriority(aPriority, aTimestamp, bPriority, bTimestamp)`. -/
def compareTokenPriority (aPriority : Int) (aTimestamp : Nat)
    (bPriority : Int) (bTimestamp : Nat) : Int :=
  if aPriority ≠ bPriority then bPriority - aPriority
  else (aTimestamp : Int) - (bTimestamp : Int)

/-- `MAX_BUMP_COUNT` / `canBeBumped(currentBumpCount)`. -/
def canBeBumped (currentBumpCount : Nat) : Bool :=
  currentBumpCount < 2

/-! ### Stable sorting

`Array.prototype.sort(c)` is stable; its result equals the stable insertion
sort under `le a b := c a b ≤ 0`:  an element is inserted before the first
already-placed element it strictly precedes, and after every element that
ties with or precedes it. -/

/-- Insert `x` into `l` before the first element `y` with `le x y`. -/
def insertStable {α : Type} (le : α → α → Bool) (x : α) : List α → List α
  | [] => [x]
  | y :: ys => if le x y then x :: y :: ys else y :: insertStable le x ys

/-- Stable sort by the boolean relation `le`. -/
def sortStable {α : Type} (le : α → α → Bool) : List α → List α
  | [] => []
  | x :: xs => insertStable le x (sortStable le xs)

/-- The waitlist comparator as a boolean relation on tokens:
`compareTokenPriority ≤ 0` (score descending, then creation time
ascending). -/
def tokenLE (a b : Token) : Bool :=
  compareTokenPriority a.priority a.createdAt b.priority b.createdAt ≤ 0

/-! ### Slot manager (`src/core/slotManager.ts`) -/

namespace SlotManager

open Store

/-- `hasCapacity(slotId)` — `currentLoad < maxCapacity`; `false` for an
unknown slot.  Note: the slot's `status` is *not* consulted. -/
def hasCapacity (S : Store) (slotId : Nat) : Bool :=
  match S.getSlot slotId with
  | none => false
  | some slot => slot.currentLoad < slot.maxCapacity

/-- `updateSlotStatus(slotId)` — recomputes the status from load vs
capacity and writes it with a partial `store.updateSlot`. -/
def updateSlotStatus (S : Store) (slotId : Nat) : Store :=
  match S.getSlot slotId with
  | none => S
  | some slot =>
    let newStatus : SlotStatus :=
      if slot.currentLoad = 0 then .AVAILABLE
      else if slot.currentLoad < slot.maxCapacity then .AVAILABLE
      else if slot.currentLoad = slot.maxCapacity then .FULL
      else .OVERFLOW
    S.updateSlotWith slotId (fun s => { s with status := newStatus })

/-- `addTokenToSlot(slotId, tokenId)`.  The fetched object is mutated in
place (push + load recount), `updateSlotStatus` stores a merged copy with
the recomputed status, and the trailing `store.updateSlot(slotId, slot)`
re-stores the *local* object — whose `status` field still holds the
pre-call value, silently undoing the status recomputation. -/
def addTokenToSlot (S : Store) (slotId tokenId : Nat) : Store :=
  match S.getSlot slotId with
  | none => S
  | some slot =>
    let slot := { slot with allocatedTokens := slot.allocatedTokens ++ [tokenId] }
    let slot := { slot with currentLoad := slot.allocatedTokens.length }
    let S := S.setSlot slotId slot
    let S := updateSlotStatus S slotId
    S.setSlot slotId slot

/-- `removeTokenFromSlot(slotId, tokenId)` — same clobbering pattern as
`addTokenToSlot`; no-op on an unknown slot. -/
def removeTokenFromSlot (S : Store) (slotId tokenId : Nat) : Store :=
  match S.getSlot slotId with
  | none => S
  | some slot =>
    let slot := { slot with allocatedTokens := slot.allocatedTokens.filter (fun id => id ≠ tokenId) }
    let slot := { slot with currentLoad := slot.allocatedTokens.length }
    let S := S.setSlot slotId slot
    let S := updateSlotStatus S slotId
    S.setSlot slotId slot

/-- `sortWaitlist(slotId)` — resolves the waitlist ids (silently dropping
unknown ids), stable-sorts by `compareTokenPriority`, and stores the sorted
id list. -/
def sortWaitlist (S : Store) (slotId : Nat) : Store :=
  match S.getSlot slotId with
  | none => S
  | some slot =>
    let waitlistTokens := slot.waitlist.filterMap S.getToken
    let sorted := sortStable tokenLE waitlistTokens
    S.setSlot slotId { slot with waitlist := sorted.map (fun t => t.id) }

/-- `addToWaitlist(slotId, tokenId)` — push, then full re-sort.  (The
trailing `store.updateSlot(slotId, slot)` in the source rewrites the same
object value `sortWaitlist` just stored, a no-op on the store.) -/
def addToWaitlist (S : Store) (slotId tokenId : Nat) : Store :=
  match S.getSlot slotId with
  | none => S
  | some slot =>
    let slot := { slot with waitlist := slot.waitlist ++ [tokenId] }
    let S := S.setSlot slotId slot
    sortWaitlist S slotId

/-- `removeFromWaitlist(slotId, tokenId)`. -/
def removeFromWaitlist (S : Store) (slotId tokenId : Nat) : Store :=
  match S.getSlot slotId with
  | none => S
  | some slot =>
    S.setSlot slotId { slot with waitlist := slot.waitlist.filter (fun id => id ≠ tokenId) }

/-- `getNextFromWaitlist(slotId)` — head of the waitlist, resolved. -/
def getNextFromWaitlist (S : Store) (slotId : Nat) : Option Token :=
  match S.getSlot slotId with
  | none => none
  | some slot =>
    match slot.waitlist with
    | [] => none
    | nextTokenId :: _ => S.getToken nextTokenId

/-- `promoteFromWaitlist(slotId)` — pops the waitlist head, admits it via
`addTokenToSlot` (no capacity check), sets it ALLOCATED.  Returns the
promoted token and the new store. -/
def promoteFromWaitlist (S : Store) (slotId : Nat) : Option Token × Store :=
  match getNextFromWaitlist S slotId with
  | none => (none, S)
  | some nextToken =>
    let S := removeFromWaitlist S slotId nextToken.id
    let S := addTokenToSlot S slotId nextToken.id
    let S := S.updateToken nextToken.id (fun t =>
      { t with status := .ALLOCATED, slotId := some slotId, allocatedAt := some S.now })
    (S.getToken nextToken.id, S)

/-- `findBestAvailableSlot(doctorId)` — non-CLOSED slots with spare
capacity, stable-sorted by ascending load; head or `none`. -/
def findBestAvailableSlot (S : Store) (doctorId : Nat) : Option TimeSlot :=
  let slots := S.getSlotsByDoctor doctorId
  let availableSlots := slots.filter (fun slot =>
    slot.status != SlotStatus.CLOSED && slot.currentLoad < slot.maxCapacity)
  if availableSlots.isEmpty then none
  else (sortStable (fun a b => (a.currentLoad : Int) - b.currentLoad ≤ 0) availableSlots).head?

end SlotManager

/-! ### Token allocator (`src/core/tokenAllocator.ts`) -/

/-- The `message` strings of `AllocationResult`, as tagged constructors
carrying the interpolated data. -/
inductive Msg where
  /-- `'No available slots. Added to general waitlist.'` -/
  | noSlots
  /-- `'Slot not found'` -/
  | slotNotFound
  /-- `'Token allocated successfully'` -/
  | allocated
  /-- `` `Emergency patient allocated (slot in overflow: ${load}/${cap})` `` -/
  | emergencyOverflow (load cap : Nat)
  /-- `'No bumpable patients found'` -/
  | noBumpable
  /-- `` `Allocated by bumping patient ${name}` `` -/
  | bumpedPatient (name : String)
  /-- `` `Added to waitlist (position: ${n})` `` -/
  | waitlistPosition (n : Nat)
  /-- `'Token already cancelled'` -/
  | alreadyCancelled
  /-- `'Token cancelled successfully'` -/
  | cancelled
  /-- `'Marked as no-show, slot freed'` -/
  | noShowFreed
deriving DecidableEq, Repr

/-- `slotInfo` payload of `AllocationResult`. -/
structure SlotInfo where
  slotId : Nat
  currentLoad : Nat
  maxCapacity : Nat
deriving DecidableEq, Repr

/-- `AllocationResult` (`src/types/domain.ts`); the `token` field is
represented by its id (the live object is read back from the store). -/
structure AllocationResult where
  success : Bool
  tokenId : Nat
  message : Msg
  slotInfo : Option SlotInfo := none
deriving DecidableEq, Repr

namespace TokenAllocator

open Store SlotManager

/-- `handleEmergencyAllocation(token, slotId)` — admit regardless of
capacity; the re-fetch `store.getSlot(slotId)!` is total here because the
caller resolved the slot (the `.getD` default is unreachable under every
theorem's hypotheses). -/
def handleEmergencyAllocation (S : Store) (token : Token) (slotId : Nat) :
    AllocationResult × Store :=
  let S := addTokenToSlot S slotId token.id
  let S := S.updateToken token.id (fun t =>
    { t with status := .ALLOCATED, slotId := some slotId, allocatedAt := some S.now })
  let slot := (S.getSlot slotId).getD default
  ({ success := true, tokenId := token.id,
     message := .emergencyOverflow slot.currentLoad slot.maxCapacity,
     slotInfo := some ⟨slotId, slot.currentLoad, slot.maxCapacity⟩ }, S)

/-- `tryBumpLowerPriority(token, slotId)`. -/
def tryBumpLowerPriority (S : Store) (token : Token) (slotId : Nat) :
    AllocationResult × Store :=
  match S.getSlot slotId with
  | none => ({ success := false, tokenId := token.id, message := .slotNotFound }, S)
  | some slot =>
    let allocatedTokens := slot.allocatedTokens.filterMap S.getToken
    let bumpableCandidates := allocatedTokens.filter (fun t =>
      canBump token.patientType t.patientType && canBeBumped t.bumpCount)
    match bumpableCandidates.getLast? with
    | none => ({ success := false, tokenId := token.id, message := .noBumpable }, S)
    | some tokenToBump =>
      let S := removeTokenFromSlot S slotId tokenToBump.id
      let S := S.updateToken tokenToBump.id (fun t =>
        { t with status := .WAITLISTED, slotId := none, allocatedAt := none,
                 bumpCount := tokenToBump.bumpCount + 1 })
      let S := addToWaitlist S slotId tokenToBump.id
      let S := addTokenToSlot S slotId token.id
      let S := S.updateToken token.id (fun t =>
        { t with status := .ALLOCATED, slotId := some slotId, allocatedAt := some S.now })
      ({ success := true, tokenId := token.id,
         message := .bumpedPatient tokenToBump.patientName,
         slotInfo := some ⟨slotId, slot.currentLoad, slot.maxCapacity⟩ }, S)

/-- The allocator's private `addToWaitlist(token, slotId)` — waitlist the
token against the slot and report `slot.waitlist.length` (re-fetched after
the sorted insertion) as the position. -/
def allocAddToWaitlist (S : Store) (token : Token) (slotId : Nat) :
    AllocationResult × Store :=
  let S := SlotManager.addToWaitlist S slotId token.id
  let S := S.updateToken token.id (fun t =>
    { t with status := .WAITLISTED, slotId := some slotId })
  let slot := (S.getSlot slotId).getD default
  ({ success := false, tokenId := token.id,
     message := .waitlistPosition slot.waitlist.length,
     slotInfo := some ⟨slotId, slot.currentLoad, slot.maxCapacity⟩ }, S)

/-- `allocateToSlot(token, slotId)` — the four-case core dispatch. -/
def allocateToSlot (S : Store) (token : Token) (slotId : Nat) :
    AllocationResult × Store :=
  match S.getSlot slotId with
  | none => ({ success := false, tokenId := token.id, message := .slotNotFound }, S)
  | some slot =>
    if hasCapacity S slotId then
      let S := addTokenToSlot S slotId token.id
      let S := S.updateToken token.id (fun t =>
        { t with status := .ALLOCATED, slotId := some slotId, allocatedAt := some S.now })
      ({ success := true, tokenId := token.id, message := .allocated,
         slotInfo := some ⟨slotId, slot.currentLoad + 1, slot.maxCapacity⟩ }, S)
    else if token.patientType = PatientType.EMERGENCY then
      handleEmergencyAllocation S token slotId
    else if token.patientType = PatientType.PAID_PRIORITY then
      let bumpResult := tryBumpLowerPriority S token slotId
      if bumpResult.1.success then bumpResult
      else allocAddToWaitlist bumpResult.2 token slotId
    else
      allocAddToWaitlist S token slotId

/-- `allocateToken(patientName, patientType, doctorId, preferredSlotId?)`. -/
def allocateToken (S : Store) (patientName : String) (patientType : PatientType)
    (doctorId : Nat) (preferredSlotId : Option Nat) : AllocationResult × Store :=
  let token : Token :=
    { id := S.nextId, patientName := patientName, patientType := patientType,
      priority := getPriorityScore patientType, doctorId := doctorId,
      status := .PENDING, createdAt := S.now, bumpCount := 0 }
  let S := S.addToken token
  let S : Store := { S with nextId := S.nextId + 1, now := S.now + 1 }
  let targetSlot :=
    match preferredSlotId with
    | some pid => S.getSlot pid
    | none => findBestAvailableSlot S doctorId
  match targetSlot with
  | none =>
    -- token.status = WAITLISTED; store.updateToken(token.id, token)
    let S := S.updateToken token.id (fun t => { t with status := .WAITLISTED })
    ({ success := false, tokenId := token.id, message := .noSlots }, S)
  | some target => allocateToSlot S token target.id

/-- `cancelToken(tokenId)`; `none` models the `Token not found` throw.
The local `token` keeps the *pre-update* status (the store's `updateToken`
replaces the stored entry with a fresh merged object), so the two
`token.status` guards after the CANCELLED write test the original
status. -/
def cancelToken (S : Store) (tokenId : Nat) : Option (AllocationResult × Store) :=
  match S.getToken tokenId with
  | none => none
  | some token =>
    if token.status = TokenStatus.CANCELLED then
      some ({ success := false, tokenId := tokenId, message := .alreadyCancelled }, S)
    else
      let slotId := token.slotId
      let S := S.updateToken tokenId (fun t => { t with status := .CANCELLED })
      let S :=
        match slotId with
        | none => S
        | some sid =>
          if token.status = TokenStatus.ALLOCATED then
            let S := removeTokenFromSlot S sid tokenId
            (promoteFromWaitlist S sid).2
          else if token.status = TokenStatus.WAITLISTED then
            removeFromWaitlist S sid tokenId
          else S
      some ({ success := true, tokenId := tokenId, message := .cancelled }, S)

/-- `markNoShow(tokenId)`; `none` models the throw.  No terminal-status
guard: the slot-freeing and promotion run whenever `token.slotId` is set,
even for a token that was only waitlisted (which is *not* removed from the
waitlist first). -/
def markNoShow (S : Store) (tokenId : Nat) : Option (AllocationResult × Store) :=
  match S.getToken tokenId with
  | none => none
  | some token =>
    let slotId := token.slotId
    let S := S.updateToken tokenId (fun t => { t with status := .NO_SHOW })
    let S :=
      match slotId with
      | none => S
      | some sid =>
        let S := removeTokenFromSlot S sid tokenId
        (promoteFromWaitlist S sid).2
    some ({ success := true, tokenId := tokenId, message := .noShowFreed }, S)

/-- `completeToken(tokenId)`; `none` models the throw. -/
def completeToken (S : Store) (tokenId : Nat) : Option Store :=
  match S.getToken tokenId with
  | none => none
  | some _ =>
    some (S.updateToken tokenId (fun t => { t with status := .COMPLETED }))

end TokenAllocator

/-! ### Delay handler (`src/core/delayHandler.ts`) — only
`redistributePatientsFromSlot` is needed by the claims. -/

namespace DelayHandler

open Store SlotManager

/-- Result of `redistributePatientsFromSlot`; `details` models the
per-token emoji strings as `(moved?, tokenId)` pairs. -/
structure RedistributionResult where
  redistributed : Nat
  failed : Nat
  details : List (Bool × Nat)
deriving DecidableEq, Repr

/-- One iteration of the `tokensToRedistribute.forEach` body: resolve the
token (skip silently if unknown), first-fit search over the snapshot of
sibling slot ids using the *live* `hasCapacity`, then either move the token
or record a failure. -/
def redistStep (sourceSlotId : Nat) (otherSlotIds : List Nat)
    (acc : RedistributionResult × Store) (tokenId : Nat) :
    RedistributionResult × Store :=
  let (res, S) := acc
  match S.getToken tokenId with
  | none => (res, S)
  | some _ =>
    match otherSlotIds.find? (fun sid => hasCapacity S sid) with
    | some targetId =>
      let S := removeTokenFromSlot S sourceSlotId tokenId
      let S := removeFromWaitlist S sourceSlotId tokenId
      let S := addTokenToSlot S targetId tokenId
      let S := S.updateToken tokenId (fun t => { t with slotId := some targetId })
      ({ res with redistributed := res.redistributed + 1,
                  details := res.details ++ [(true, tokenId)] }, S)
    | none =>
      ({ res with failed := res.failed + 1,
                  details := res.details ++ [(false, tokenId)] }, S)

/-- `redistributePatientsFromSlot(slotId)`; `none` models the
`Slot not found` throw.  The token list (allocated then waitlisted) and the
candidate sibling list (the doctor's other non-CLOSED slots, in store
order) are snapshots taken before the loop; capacity is re-checked live for
every token.  The source slot is forced CLOSED afterwards via a partial
`store.updateSlot`, regardless of failures. -/
def redistributePatientsFromSlot (S : Store) (slotId : Nat) :
    Option (RedistributionResult × Store) :=
  match S.getSlot slotId with
  | none => none
  | some slot =>
    let tokensToRedistribute := slot.allocatedTokens ++ slot.waitlist
    let otherSlotIds :=
      ((S.getSlotsByDoctor slot.doctorId).filter (fun s =>
        s.id != slotId && s.status != SlotStatus.CLOSED)).map (fun s => s.id)
    let (res, S) := tokensToRedistribute.foldl
      (redistStep slotId otherSlotIds) (⟨0, 0, []⟩, S)
    let S := S.updateSlotWith slotId (fun s => { s with status := .CLOSED })
    some (res, S)

end DelayHandler

/-! ### Generic association-list lemmas

The store is a pair of id-keyed association lists; `setSlot`,
`updateSlotWith` and `updateToken` are all of the shape
`map (fun x => if key x == k then g x else x)`. -/

section AssocLemmas

variable {α : Type}

theorem find?_map_if_self (p : α → Bool) (g : α → α) {l : List α} {a : α}
    (h : l.find? p = some a) (hg : p (g a) = true) :
    (l.map (fun x => if p x then g x else x)).find? p = some (g a) := by
  induction l with
  | nil => simp at h
  | cons b t ih =>
    cases hb : p b with
    | true =>
      rw [List.find?_cons_of_pos _ hb] at h
      injection h with h
      subst h
      rw [List.map_cons, if_pos hb]
      exact List.find?_cons_of_pos _ hg
    | false =>
      rw [List.find?_cons_of_neg _ (by simp [hb])] at h
      rw [List.map_cons, if_neg (by simp [hb]),
        List.find?_cons_of_neg _ (by simp [hb])]
      exact ih h

theorem find?_map_if_congr (p q : α → Bool) (g : α → α) (l : List α)
    (h1 : ∀ x, q (if p x then g x else x) = q x)
    (h2 : ∀ x, q x = true → (if p x then g x else x) = x) :
    (l.map (fun x => if p x then g x else x)).find? q = l.find? q := by
  induction l with
  | nil => rfl
  | cons b t ih =>
    simp only [List.map_cons]
    cases hb : q b with
    | true =>
      rw [h2 b hb, List.find?_cons_of_pos _ hb, List.find?_cons_of_pos _ hb]
    | false =>
      have hmb : ¬ q (if p b then g b else b) = true := by rw [h1]; simp [hb]
      rw [List.find?_cons_of_neg _ hmb, List.find?_cons_of_neg _ (by simp [hb])]
      exact ih

theorem map_if_of_not_found (p : α → Bool) (g : α → α) {l : List α}
    (h : l.find? p = none) :
    (l.map (fun x => if p x then g x else x)) = l := by
  rw [List.find?_eq_none] at h
  induction l with
  | nil => rfl
  | cons b t ih =>
    have hb : ¬ p b = true := h b (List.mem_cons_self b t)
    simp only [List.map_cons, if_neg hb, List.cons.injEq]
    exact ⟨trivial, ih (fun x hx => h x (List.mem_cons_of_mem b hx))⟩

end AssocLemmas

theorem find?_key_of_mem {α : Type} (key : α → Nat) {l : List α}
    (hnd : (l.map key).Nodup) {a : α} (hm : a ∈ l) :
    l.find? (fun x => key x == key a) = some a := by
  induction l with
  | nil => simp at hm
  | cons b t ih =>
    rcases List.mem_cons.mp hm with rfl | hat
    · exact List.find?_cons_of_pos _ (by simp)
    · have hnd' := hnd
      rw [List.map_cons, List.nodup_cons] at hnd'
      have hb : ¬ (key b == key a) = true := by
        simp only [beq_iff_eq]
        intro hkey
        exact hnd'.1 (hkey ▸ List.mem_map_of_mem key hat)
      have hstep := @List.find?_cons_of_neg _ (fun x => key x == key a) b t hb
      rw [hstep]
      exact ih hnd'.2 hat

/-! ### Store lookup and update lemmas -/

namespace Store

theorem getSlot_id {S : Store} {sid : Nat} {sl : TimeSlot}
    (h : S.getSlot sid = some sl) : sl.id = sid := by
  simpa using List.find?_some h

theorem getToken_id {S : Store} {tid : Nat} {tk : Token}
    (h : S.getToken tid = some tk) : tk.id = tid := by
  simpa using List.find?_some h

theorem getSlot_mem {S : Store} {sid : Nat} {sl : TimeSlot}
    (h : S.getSlot sid = some sl) : sl ∈ S.slots :=
  List.mem_of_find?_eq_some h

theorem getSlot_of_mem {S : Store} (hnd : (S.slots.map TimeSlot.id).Nodup)
    {sl : TimeSlot} (hm : sl ∈ S.slots) : S.getSlot sl.id = some sl :=
  find?_key_of_mem TimeSlot.id hnd hm

theorem getSlot_setSlot_self {S : Store} {sid : Nat} {sl X : TimeSlot}
    (h : S.getSlot sid = some sl) (hX : X.id = sid) :
    (S.setSlot sid X).getSlot sid = some X := by
  have h' : S.slots.find? (fun s => s.id == sid) = some sl := h
  show (S.slots.map (fun t => if t.id == sid then X else t)).find?
    (fun s => s.id == sid) = some X
  exact find?_map_if_self (fun s => s.id == sid) (fun _ => X) h' (by simp [hX])

theorem getSlot_setSlot_ne {S : Store} {sid sid' : Nat} {X : TimeSlot}
    (hne : sid' ≠ sid) (hX : X.id = sid) :
    (S.setSlot sid X).getSlot sid' = S.getSlot sid' := by
  refine find?_map_if_congr (fun s => s.id == sid) (fun s => s.id == sid')
    (fun _ => X) S.slots (fun x => ?_) (fun x hx => ?_)
  · by_cases hxs : (x.id == sid) = true
    · have : x.id = sid := by simpa using hxs
      simp [hxs, hX, this, Ne.symm hne]
    · simp [hxs]
  · have : x.id = sid' := by simpa using hx
    have hxs : ¬ (x.id == sid) = true := by simp [this, hne]
    simp [hxs]

theorem getToken_setSlot {S : Store} {sid : Nat} {X : TimeSlot} (tid : Nat) :
    (S.setSlot sid X).getToken tid = S.getToken tid := rfl

theorem getSlot_updateToken {S : Store} {tid : Nat} {f : Token → Token} (sid : Nat) :
    (S.updateToken tid f).getSlot sid = S.getSlot sid := rfl

theorem getSlot_addToken {S : Store} {tk : Token} (sid : Nat) :
    (S.addToken tk).getSlot sid = S.getSlot sid := rfl

theorem getToken_updateToken_self {S : Store} {tid : Nat} {tk : Token}
    {f : Token → Token} (h : S.getToken tid = some tk) (hf : (f tk).id = tk.id) :
    (S.updateToken tid f).getToken tid = some (f tk) := by
  have h' : S.tokens.find? (fun t => t.id == tid) = some tk := h
  show (S.tokens.map (fun t => if t.id == tid then f t else t)).find?
    (fun t => t.id == tid) = some (f tk)
  exact find?_map_if_self (fun t => t.id == tid) f h'
    (by simp [hf, getToken_id h])

theorem getToken_updateToken_ne {S : Store} {tid tid' : Nat} {f : Token → Token}
    (hne : tid' ≠ tid) (hf : ∀ t, (f t).id = t.id) :
    (S.updateToken tid f).getToken tid' = S.getToken tid' := by
  refine find?_map_if_congr (fun t => t.id == tid) (fun t => t.id == tid')
    f S.tokens (fun x => ?_) (fun x hx => ?_)
  · by_cases hxs : (x.id == tid) = true
    · simp [hxs, hf]
    · simp [hxs]
  · have : x.id = tid' := by simpa using hx
    have hxs : ¬ (x.id == tid) = true := by simp [this, hne]
    simp [hxs]

theorem getToken_addToken_self {S : Store} {tk : Token}
    (hfresh : ∀ t ∈ S.tokens, t.id ≠ tk.id) :
    (S.addToken tk).getToken tk.id = some tk := by
  show (S.tokens ++ [tk]).find? (fun t => t.id == tk.id) = some tk
  rw [List.find?_append]
  have h1 : S.tokens.find? (fun t => t.id == tk.id) = none := by
    rw [List.find?_eq_none]
    intro x hx
    simp [hfresh x hx]
  rw [h1]
  simp [List.find?]

theorem getToken_addToken_ne {S : Store} {tk : Token} {tid : Nat}
    (hne : tk.id ≠ tid) :
    (S.addToken tk).getToken tid = S.getToken tid := by
  show (S.tokens ++ [tk]).find? (fun t => t.id == tid) = _
  rw [List.find?_append]
  have h1 : [tk].find? (fun t => t.id == tid) = none := by
    rw [List.find?_eq_none]
    intro x hx
    simp only [List.mem_singleton] at hx
    simp [hx, hne]
  rw [h1, Option.or_none]
  rfl

theorem setSlot_setSlot {S : Store} {sid : Nat} {X Y : TimeSlot} (hX : X.id = sid) :
    (S.setSlot sid X).setSlot sid Y = S.setSlot sid Y := by
  simp only [Store.setSlot, List.map_map]
  congr 1
  refine List.map_congr_left (fun t _ => ?_)
  by_cases ht : (t.id == sid) = true
  · simp [Function.comp, ht, hX]
  · simp [Function.comp, ht]

theorem setSlot_updateWith_setSlot {S : Store} {sid : Nat} {X : TimeSlot}
    (g : TimeSlot → TimeSlot) (hX : X.id = sid) (hg : ∀ s, (g s).id = s.id) :
    ((S.setSlot sid X).updateSlotWith sid g).setSlot sid X = S.setSlot sid X := by
  simp only [Store.setSlot, Store.updateSlotWith, List.map_map]
  congr 1
  refine List.map_congr_left (fun t _ => ?_)
  by_cases ht : (t.id == sid) = true
  · simp [Function.comp, ht, hX, hg]
  · simp [Function.comp, ht]

end Store

/-! ### Lemmas about the stable sort -/

theorem mem_insertStable {α : Type} {le : α → α → Bool} {x b : α} {l : List α} :
    b ∈ insertStable le x l ↔ b = x ∨ b ∈ l := by
  induction l with
  | nil => simp [insertStable]
  | cons y ys ih =>
    unfold insertStable
    by_cases h : le x y = true
    · simp [h, List.mem_cons]
    · simp only [if_neg h, List.mem_cons, ih]
      tauto

theorem length_insertStable {α : Type} (le : α → α → Bool) (x : α) (l : List α) :
    (insertStable le x l).length = l.length + 1 := by
  induction l with
  | nil => rfl
  | cons y ys ih =>
    unfold insertStable
    by_cases h : le x y = true
    · simp [h]
    · simp [if_neg h, ih]

theorem mem_sortStable {α : Type} {le : α → α → Bool} {b : α} {l : List α} :
    b ∈ sortStable le l ↔ b ∈ l := by
  induction l with
  | nil => simp [sortStable]
  | cons y ys ih =>
    unfold sortStable
    rw [mem_insertStable]
    simp [ih]

theorem length_sortStable {α : Type} (le : α → α → Bool) (l : List α) :
    (sortStable le l).length = l.length := by
  induction l with
  | nil => rfl
  | cons y ys ih =>
    unfold sortStable
    rw [length_insertStable, ih, List.length_cons]

theorem length_filterMap_of_isSome {α β : Type} {f : α → Option β} {l : List α}
    (h : ∀ a ∈ l, (f a).isSome) :
    (l.filterMap f).length = l.length := by
  induction l with
  | nil => rfl
  | cons b t ih =>
    obtain ⟨v, hv⟩ := Option.isSome_iff_exists.mp (h b (List.mem_cons_self b t))
    rw [List.filterMap_cons_some hv, List.length_cons, List.length_cons,
      ih (fun a ha => h a (List.mem_cons_of_mem b ha))]

theorem filter_ne_cons_self {l : List Nat} {a : Nat} (h : a ∉ l) :
    (a :: l).filter (fun id => id ≠ a) = l := by
  have h1 : (a :: l).filter (fun id => id ≠ a) = l.filter (fun id => id ≠ a) := by
    rw [List.filter_cons]
    simp
  rw [h1]
  exact List.filter_eq_self.mpr (fun x hx => by
    simp only [ne_eq, decide_eq_true_eq]
    exact fun hxa => h (hxa ▸ hx))

theorem length_filter_ne_of_mem {l : List Nat} {a : Nat}
    (hnd : l.Nodup) (hm : a ∈ l) :
    (l.filter (fun id => id ≠ a)).length + 1 = l.length := by
  induction l with
  | nil => simp at hm
  | cons b t ih =>
    rw [List.nodup_cons] at hnd
    rcases List.mem_cons.mp hm with rfl | hat
    · rw [filter_ne_cons_self hnd.1, List.length_cons]
    · have hba : b ≠ a := fun hba => hnd.1 (hba ▸ hat)
      have hcond : (fun id => decide (id ≠ a)) b = true := by simp [hba]
      have := ih hnd.2 hat
      rw [List.filter_cons, if_pos hcond, List.length_cons, List.length_cons]
      omega

/-! ### Net-effect and frame lemmas for the slot-manager operations -/

namespace SlotManager

open Store

theorem addTokenToSlot_eq {S : Store} {sid : Nat} {sl : TimeSlot} (tid : Nat)
    (h : S.getSlot sid = some sl) :
    addTokenToSlot S sid tid =
      S.setSlot sid { sl with allocatedTokens := sl.allocatedTokens ++ [tid], currentLoad := (sl.allocatedTokens ++ [tid]).length } := by
  have hid : sl.id = sid := getSlot_id h
  unfold addTokenToSlot
  rw [h]
  dsimp only
  unfold updateSlotStatus
  have hscrut : (S.setSlot sid { sl with allocatedTokens := sl.allocatedTokens ++ [tid], currentLoad := (sl.allocatedTokens ++ [tid]).length }).getSlot sid = some { sl with allocatedTokens := sl.allocatedTokens ++ [tid], currentLoad := (sl.allocatedTokens ++ [tid]).length } := by
    refine getSlot_setSlot_self h ?_
    exact hid
  rw [hscrut]
  dsimp only
  refine setSlot_updateWith_setSlot _ ?_ (fun s => rfl)
  exact hid

theorem removeTokenFromSlot_eq {S : Store} {sid : Nat} {sl : TimeSlot} (tid : Nat)
    (h : S.getSlot sid = some sl) :
    removeTokenFromSlot S sid tid =
      S.setSlot sid { sl with allocatedTokens := sl.allocatedTokens.filter (fun id => id ≠ tid), currentLoad := (sl.allocatedTokens.filter (fun id => id ≠ tid)).length } := by
  have hid : sl.id = sid := getSlot_id h
  unfold removeTokenFromSlot
  rw [h]
  dsimp only
  unfold updateSlotStatus
  have hscrut : (S.setSlot sid { sl with allocatedTokens := sl.allocatedTokens.filter (fun id => id ≠ tid), currentLoad := (sl.allocatedTokens.filter (fun id => id ≠ tid)).length }).getSlot sid = some { sl with allocatedTokens := sl.allocatedTokens.filter (fun id => id ≠ tid), currentLoad := (sl.allocatedTokens.filter (fun id => id ≠ tid)).length } := by
    refine getSlot_setSlot_self h ?_
    exact hid
  rw [hscrut]
  dsimp only
  refine setSlot_updateWith_setSlot _ ?_ (fun s => rfl)
  exact hid

theorem addToWaitlist_eq {S : Store} {sid : Nat} {sl : TimeSlot} (tid : Nat)
    (h : S.getSlot sid = some sl) :
    addToWaitlist S sid tid =
      S.setSlot sid { sl with waitlist := (sortStable tokenLE ((sl.waitlist ++ [tid]).filterMap S.getToken)).map (fun t => t.id) } := by
  have hid : sl.id = sid := getSlot_id h
  unfold addToWaitlist
  rw [h]
  dsimp only
  unfold sortWaitlist
  have hscrut : (S.setSlot sid { sl with waitlist := sl.waitlist ++ [tid] }).getSlot sid = some { sl with waitlist := sl.waitlist ++ [tid] } := by
    refine getSlot_setSlot_self h ?_
    exact hid
  rw [hscrut]
  dsimp only
  refine setSlot_setSlot ?_
  exact hid

theorem removeFromWaitlist_eq {S : Store} {sid : Nat} {sl : TimeSlot} (tid : Nat)
    (h : S.getSlot sid = some sl) :
    removeFromWaitlist S sid tid =
      S.setSlot sid { sl with waitlist := sl.waitlist.filter (fun id => id ≠ tid) } := by
  unfold removeFromWaitlist
  rw [h]

theorem getToken_addTokenToSlot (S : Store) (sid tid a : Nat) :
    (addTokenToSlot S sid tid).getToken a = S.getToken a := by
  cases h : S.getSlot sid with
  | none => unfold addTokenToSlot; rw [h]
  | some sl => rw [addTokenToSlot_eq tid h]; rfl

theorem getToken_removeTokenFromSlot (S : Store) (sid tid a : Nat) :
    (removeTokenFromSlot S sid tid).getToken a = S.getToken a := by
  cases h : S.getSlot sid with
  | none => unfold removeTokenFromSlot; rw [h]
  | some sl => rw [removeTokenFromSlot_eq tid h]; rfl

theorem getToken_addToWaitlist (S : Store) (sid tid a : Nat) :
    (addToWaitlist S sid tid).getToken a = S.getToken a := by
  cases h : S.getSlot sid with
  | none => unfold addToWaitlist; rw [h]
  | some sl => rw [addToWaitlist_eq tid h]; rfl

theorem getToken_removeFromWaitlist (S : Store) (sid tid a : Nat) :
    (removeFromWaitlist S sid tid).getToken a = S.getToken a := by
  cases h : S.getSlot sid with
  | none => unfold removeFromWaitlist; rw [h]
  | some sl => rw [removeFromWaitlist_eq tid h]; rfl

theorem getSlot_addTokenToSlot_ne {S : Store} {sid sid' : Nat} (tid : Nat)
    (hne : sid' ≠ sid) :
    (addTokenToSlot S sid tid).getSlot sid' = S.getSlot sid' := by
  cases h : S.getSlot sid with
  | none => unfold addTokenToSlot; rw [h]
  | some sl =>
    have hid : sl.id = sid := getSlot_id h
    rw [addTokenToSlot_eq tid h]
    refine getSlot_setSlot_ne hne ?_
    exact hid

theorem getSlot_removeTokenFromSlot_ne {S : Store} {sid sid' : Nat} (tid : Nat)
    (hne : sid' ≠ sid) :
    (removeTokenFromSlot S sid tid).getSlot sid' = S.getSlot sid' := by
  cases h : S.getSlot sid with
  | none => unfold removeTokenFromSlot; rw [h]
  | some sl =>
    have hid : sl.id = sid := getSlot_id h
    rw [removeTokenFromSlot_eq tid h]
    refine getSlot_setSlot_ne hne ?_
    exact hid

theorem getSlot_addToWaitlist_ne {S : Store} {sid sid' : Nat} (tid : Nat)
    (hne : sid' ≠ sid) :
    (addToWaitlist S sid tid).getSlot sid' = S.getSlot sid' := by
  cases h : S.getSlot sid with
  | none => unfold addToWaitlist; rw [h]
  | some sl =>
    have hid : sl.id = sid := getSlot_id h
    rw [addToWaitlist_eq tid h]
    refine getSlot_setSlot_ne hne ?_
    exact hid

theorem getSlot_removeFromWaitlist_ne {S : Store} {sid sid' : Nat} (tid : Nat)
    (hne : sid' ≠ sid) :
    (removeFromWaitlist S sid tid).getSlot sid' = S.getSlot sid' := by
  cases h : S.getSlot sid with
  | none => unfold removeFromWaitlist; rw [h]
  | some sl =>
    have hid : sl.id = sid := getSlot_id h
    rw [removeFromWaitlist_eq tid h]
    refine getSlot_setSlot_ne hne ?_
    exact hid

end SlotManager

/-! ### Decomposition of `allocateToken` for the proofs -/

/-- The PENDING token created at the top of `allocateToken`. -/
def newToken (S : Store) (name : String) (pt : PatientType) (doc : Nat) : Token :=
  { id := S.nextId, patientName := name, patientType := pt, priority := getPriorityScore pt, doctorId := doc, status := .PENDING, createdAt := S.now, bumpCount := 0 }

/-- The store right after `store.addToken(token)` plus the id/clock bump. -/
def postCreate (S : Store) (name : String) (pt : PatientType) (doc : Nat) : Store :=
  { slots := S.slots, tokens := S.tokens ++ [newToken S name pt doc], nextId := S.nextId + 1, now := S.now + 1 }

theorem allocateToken_some_eq (S : Store) (name : String) (pt : PatientType)
    (doc p : Nat) :
    TokenAllocator.allocateToken S name pt doc (some p) =
      (match S.getSlot p with
       | none =>
         ({ success := false, tokenId := S.nextId, message := .noSlots },
          (postCreate S name pt doc).updateToken S.nextId
            (fun t => { t with status := .WAITLISTED }))
       | some target =>
         TokenAllocator.allocateToSlot (postCreate S name pt doc)
           (newToken S name pt doc) target.id) := rfl

theorem allocateToken_none_eq (S : Store) (name : String) (pt : PatientType)
    (doc : Nat) :
    TokenAllocator.allocateToken S name pt doc none =
      (match SlotManager.findBestAvailableSlot S doc with
       | none =>
         ({ success := false, tokenId := S.nextId, message := .noSlots },
          (postCreate S name pt doc).updateToken S.nextId
            (fun t => { t with status := .WAITLISTED }))
       | some target =>
         TokenAllocator.allocateToSlot (postCreate S name pt doc)
           (newToken S name pt doc) target.id) := rfl

theorem getSlot_postCreate (S : Store) (name : String) (pt : PatientType)
    (doc sid : Nat) :
    (postCreate S name pt doc).getSlot sid = S.getSlot sid := rfl

theorem getToken_postCreate_new (S : Store) (name : String) (pt : PatientType)
    (doc : Nat) (hfresh : ∀ t ∈ S.tokens, t.id ≠ S.nextId) :
    (postCreate S name pt doc).getToken S.nextId = some (newToken S name pt doc) :=
  @Store.getToken_addToken_self S (newToken S name pt doc) hfresh

theorem getToken_postCreate_old (S : Store) (name : String) (pt : PatientType)
    (doc : Nat) {tid : Nat} (hne : S.nextId ≠ tid) :
    (postCreate S name pt doc).getToken tid = S.getToken tid :=
  @Store.getToken_addToken_ne S (newToken S name pt doc) tid hne

/-- Characterisation of a successful `findBestAvailableSlot`: the returned
slot belongs to the store, is not CLOSED and has spare capacity. -/
theorem findBestAvailableSlot_spec {S : Store} {doc : Nat} {bs : TimeSlot}
    (h : SlotManager.findBestAvailableSlot S doc = some bs) :
    bs ∈ S.slots ∧ bs.status ≠ SlotStatus.CLOSED ∧ bs.currentLoad < bs.maxCapacity := by
  unfold SlotManager.findBestAvailableSlot at h
  dsimp only at h
  split at h
  · exact absurd h (by simp)
  · have hmem : bs ∈ sortStable (fun a b => (a.currentLoad : Int) - b.currentLoad ≤ 0)
        ((S.getSlotsByDoctor doc).filter (fun slot =>
          slot.status != SlotStatus.CLOSED && slot.currentLoad < slot.maxCapacity)) := by
      cases hs : sortStable (fun a b => (a.currentLoad : Int) - b.currentLoad ≤ 0)
          ((S.getSlotsByDoctor doc).filter (fun slot =>
            slot.status != SlotStatus.CLOSED && slot.currentLoad < slot.maxCapacity)) with
      | nil => rw [hs] at h; simp at h
      | cons a t =>
        rw [hs] at h
        simp only [List.head?_cons, Option.some.injEq] at h
        exact List.mem_cons.mpr (Or.inl h.symm)
    rw [mem_sortStable] at hmem
    have hf := List.mem_filter.mp hmem
    have hd := List.mem_filter.mp hf.1
    have hp := hf.2
    rw [Bool.and_eq_true] at hp
    refine ⟨hd.1, ?_, ?_⟩
    · have := hp.1
      simpa using this
    · have := hp.2
      simpa using this

/-- Admission bookkeeping: after `addTokenToSlot` plus the ALLOCATED
`updateToken`, the token reads back with status ALLOCATED and the slot
reference set. -/
theorem getToken_admission {S : Store} {tid sid : Nat} {tk : Token} (ts : Option Nat)
    (h : S.getToken tid = some tk) :
    ((SlotManager.addTokenToSlot S sid tid).updateToken tid
      (fun t => { t with status := .ALLOCATED, slotId := some sid, allocatedAt := ts })).getToken tid =
      some { tk with status := .ALLOCATED, slotId := some sid, allocatedAt := ts } := by
  have h2 : (SlotManager.addTokenToSlot S sid tid).getToken tid = some tk := by
    rw [SlotManager.getToken_addTokenToSlot]; exact h
  exact Store.getToken_updateToken_self h2 rfl

/-- An EMERGENCY token dispatched into a known slot always succeeds and ends
ALLOCATED (directly when the slot has room, via overflow otherwise). -/
theorem allocateToSlot_emergency_success {S2 : Store} {token : Token} {sid : Nat}
    {sl : TimeSlot}
    (hty : token.patientType = PatientType.EMERGENCY)
    (hsl : S2.getSlot sid = some sl)
    (htok : S2.getToken token.id = some token) :
    ((TokenAllocator.allocateToSlot S2 token sid).1.success = true) ∧
    (((TokenAllocator.allocateToSlot S2 token sid).2.getToken token.id).map
      (fun t => t.status) = some TokenStatus.ALLOCATED) := by
  unfold TokenAllocator.allocateToSlot
  rw [hsl]
  dsimp only
  by_cases hcap : SlotManager.hasCapacity S2 sid = true
  · rw [if_pos hcap]
    constructor
    · rfl
    · rw [getToken_admission _ htok]
      rfl
  · rw [if_neg hcap, if_pos hty]
    unfold TokenAllocator.handleEmergencyAllocation
    constructor
    · rfl
    · dsimp only
      rw [getToken_admission _ htok]
      rfl

/-! ### Concrete fixtures for counterexamples and witnesses -/

/-- A fresh slot of the given capacity for doctor 1 (id 1, 09:00-10:00). -/
def fixtureSlot (cap : Nat) : TimeSlot :=
  { id := 1, doctorId := 1, startTime := 540, endTime := 600, maxCapacity := cap, currentLoad := 0, status := .AVAILABLE, allocatedTokens := [], waitlist := [] }

/-- A store holding a single fresh slot of the given capacity. -/
def emptySlotStore (cap : Nat) : Store :=
  { slots := [fixtureSlot cap], tokens := [], nextId := 10, now := 0 }

/-- An allocated walk-in token occupying slot 1. -/
def walkInTok : Token :=
  { id := 10, patientName := "A", patientType := .WALK_IN, priority := 20, doctorId := 1, slotId := some 1, status := .ALLOCATED, createdAt := 0, bumpCount := 0 }

/-- Scenario B prefix: two walk-ins admitted into a fresh capacity-2 slot. -/
def scenB1 : Store := (TokenAllocator.allocateToken (emptySlotStore 2) "W1" .WALK_IN 1 none).2

/-- Scenario B prefix, second admission (slot now at 2/2). -/
def scenB2 : Store := (TokenAllocator.allocateToken scenB1 "W2" .WALK_IN 1 none).2

/-- Scenario B: an emergency admitted into the full slot. -/
def scenB3 : AllocationResult × Store := TokenAllocator.allocateToken scenB2 "T4" .EMERGENCY 1 (some 1)

/-- A walk-in filling a capacity-1 slot. -/
def noShowFix1 : Store := (TokenAllocator.allocateToken (emptySlotStore 1) "A" .WALK_IN 1 none).2

/-- A second walk-in waitlisted against the full capacity-1 slot. -/
def noShowFix2 : Store := (TokenAllocator.allocateToken noShowFix1 "W" .WALK_IN 1 (some 1)).2

/-- The store after no-showing the waitlisted token 11. -/
def noShowFix3 : Store :=
  match TokenAllocator.markNoShow noShowFix2 11 with
  | some p => p.2
  | none => noShowFix2

/-- Two walk-ins waitlisted behind the full capacity-1 slot. -/
def lateFix1 : Store := (TokenAllocator.allocateToken noShowFix1 "X2" .WALK_IN 1 (some 1)).2

/-- Third walk-in (token 12) also waitlisted, behind token 11. -/
def lateFix2 : Store := (TokenAllocator.allocateToken lateFix1 "X3" .WALK_IN 1 (some 1)).2

/-- The store after no-showing the waitlisted token 12 (not at the head). -/
def lateFix3 : Store :=
  match TokenAllocator.markNoShow lateFix2 12 with
  | some p => p.2
  | none => lateFix2

/-- The store after then cancelling the allocated token 10. -/
def lateFix4 : Store :=
  match TokenAllocator.cancelToken lateFix3 10 with
  | some p => p.2
  | none => lateFix3

/-- A store with the only slot of the doctor full (capacity 1). -/
def fullScheduleStore : Store :=
  { slots := [{ fixtureSlot 1 with currentLoad := 1, allocatedTokens := [10] }], tokens := [walkInTok], nextId := 11, now := 3 }

/-- A store with an empty CLOSED slot. -/
def closedSlotStore : Store :=
  { slots := [{ fixtureSlot 2 with status := .CLOSED }], tokens := [], nextId := 10, now := 0 }

/-- A waitlisted walk-in token behind slot 1. -/
def waitingWalkIn : Token :=
  { id := 11, patientName := "B", patientType := .WALK_IN, priority := 20, doctorId := 1, slotId := some 1, status := .WAITLISTED, createdAt := 1, bumpCount := 0 }

/-- A full capacity-1 slot with one waitlisted walk-in. -/
def posFixStore : Store :=
  { slots := [{ fixtureSlot 1 with currentLoad := 1, allocatedTokens := [10], waitlist := [11] }], tokens := [walkInTok, waitingWalkIn], nextId := 12, now := 5 }

/-- An allocated walk-in with the given id. -/
def seqTok (i : Nat) : Token := { walkInTok with id := i, createdAt := i }

/-- Scenario E fixture: slot 1 full with three allocated walk-ins, sibling
slot 2 with two free seats. -/
def redistStore : Store :=
  { slots := [{ fixtureSlot 3 with currentLoad := 3, allocatedTokens := [10, 11, 12] }, { fixtureSlot 2 with id := 2, startTime := 600, endTime := 660 }], tokens := [seqTok 10, seqTok 11, seqTok 12], nextId := 13, now := 5 }

/-- A paid-priority token present in the token table but not yet allocated. -/
def bumperTok : Token :=
  { id := 12, patientName := "P", patientType := .PAID_PRIORITY, priority := 80, doctorId := 1, slotId := none, status := .PENDING, createdAt := 5, bumpCount := 0 }

/-- A capacity-2 slot holding two allocated walk-ins (ids 10 and 11). -/
def bumpSlot : TimeSlot := { fixtureSlot 2 with currentLoad := 2, allocatedTokens := [10, 11] }

/-- Bump fixture: the full capacity-2 slot plus the paid-priority bumper. -/
def bumpFixStore : Store :=
  { slots := [bumpSlot], tokens := [seqTok 10, seqTok 11, bumperTok], nextId := 13, now := 5 }

/-! ### Claim theorems: concrete evaluations -/

/-- C2 (code bug): after admitting two walk-ins and then an emergency into a
fresh capacity-2 slot, the stored slot holds load 3 of capacity 2 but its
status field still reads AVAILABLE — neither the FULL transition after the
second admission nor the OVERFLOW transition after the emergency admission
survives, because `addTokenToSlot` re-stores the locally fetched slot object
(carrying the pre-call status) after `updateSlotStatus` has run.  The claim
(and `docs/ALGORITHM.md`) requires the status to be recomputed to OVERFLOW
in Scenario B. -/
theorem slot_status_stale_after_overflow_admission :
    ((scenB2.getSlot 1).map (fun s => (s.currentLoad, s.maxCapacity, s.status)) = some (2, 2, SlotStatus.AVAILABLE)) ∧
    (scenB3.1.success = true) ∧
    ((scenB3.2.getSlot 1).map (fun s => (s.currentLoad, s.maxCapacity, s.status)) = some (3, 2, SlotStatus.AVAILABLE)) ∧
    SlotStatus.AVAILABLE ≠ SlotStatus.OVERFLOW := by
  exact ⟨by decide, by decide, by decide, by decide⟩

/-- C3 (code bug): no-showing a token that is merely WAITLISTED (token 11,
waiting on the full capacity-1 slot) triggers `promoteFromWaitlist`, which
admits the waitlist head without any capacity check; the slot ends with
load 2 over capacity 1 while every token in it is a WALK_IN — a
non-emergency overflow, violating the capacity invariant. -/
theorem noShow_waitlisted_creates_nonemergency_overflow :
    ((TokenAllocator.markNoShow noShowFix2 11).isSome = true) ∧
    ((noShowFix3.getSlot 1).map (fun s => (s.currentLoad, s.maxCapacity, s.allocatedTokens)) = some (2, 1, [10, 11])) ∧
    ((noShowFix3.getToken 10).map (fun t => t.patientType) = some PatientType.WALK_IN) ∧
    ((noShowFix3.getToken 11).map (fun t => t.patientType) = some PatientType.WALK_IN) := by
  exact ⟨by decide, by decide, by decide, by decide⟩

/-- C4 (code bug): token 12 is marked NO_SHOW while waitlisted (it stays on
the waitlist because `markNoShow` never removes a merely-waitlisted token
from the waitlist); a later, separate cancellation of the allocated token
10 promotes token 12 back to ALLOCATED — a terminal status is overwritten by
a later operation. -/
theorem noShow_token_reallocated_later :
    ((TokenAllocator.markNoShow lateFix2 12).isSome = true) ∧
    ((lateFix3.getToken 12).map (fun t => t.status) = some TokenStatus.NO_SHOW) ∧
    ((lateFix3.getSlot 1).map (fun s => s.waitlist) = some [12]) ∧
    ((TokenAllocator.cancelToken lateFix3 10).isSome = true) ∧
    ((lateFix4.getToken 12).map (fun t => t.status) = some TokenStatus.ALLOCATED) := by
  exact ⟨by decide, by decide, by decide, by decide, by decide⟩

/-- C1 (counterexample): with the doctor's only slot full and no preferred
slot given, an EMERGENCY request resolves no target slot; the engine returns
a failure outcome and leaves the emergency token WAITLISTED — refuting
"always success: true" and "never queued on a waitlist". -/
theorem emergency_allocation_failure_on_full_schedule :
    ((TokenAllocator.allocateToken fullScheduleStore "Em" .EMERGENCY 1 none).1.success = false) ∧
    (((TokenAllocator.allocateToken fullScheduleStore "Em" .EMERGENCY 1 none).2.getToken 11).map (fun t => t.status) = some TokenStatus.WAITLISTED) := by
  exact ⟨by decide, by decide⟩

/-- C7 (counterexample): an allocation request naming an empty CLOSED slot
as `preferredSlotId` is admitted — `hasCapacity` ignores the status, so the
CLOSED slot's `allocatedTokens` grows and its `currentLoad` rises from 0 to
1, refuting "a CLOSED slot admits no further patients". -/
theorem closed_slot_admits_preferred_walkIn :
    ((closedSlotStore.getSlot 1).map (fun s => (s.status, s.currentLoad, s.allocatedTokens)) = some (SlotStatus.CLOSED, 0, ([] : List Nat))) ∧
    ((TokenAllocator.allocateToken closedSlotStore "W" .WALK_IN 1 (some 1)).1.success = true) ∧
    (((TokenAllocator.allocateToken closedSlotStore "W" .WALK_IN 1 (some 1)).2.getSlot 1).map (fun s => (s.currentLoad, s.allocatedTokens)) = some (1, [10])) := by
  exact ⟨by decide, by decide, by decide⟩

/-- Spec-side condition used to state the amended C1: the emergency request
resolves a target slot — a preferredSlotId that exists in the store, or
(with no preference) a non-CLOSED slot of the doctor with spare capacity. -/
def emergencyTargetResolves (S : Store) (doctorId : Nat) (pid : Option Nat) : Bool :=
  match pid with
  | some p => (S.getSlot p).isSome
  | none => (SlotManager.findBestAvailableSlot S doctorId).isSome

/-- C1 (amended): an EMERGENCY allocation is admitted (ending ALLOCATED,
overflowing if necessary) with a success outcome exactly when a target slot
resolves; when no target resolves — no preferred slot given and every slot
of the doctor is CLOSED or at capacity, or the preferred id is unknown —
the emergency token is left WAITLISTED with a failure outcome. -/
theorem emergency_allocation_target_resolution (S : Store) (name : String)
    (doctorId : Nat) (pid : Option Nat)
    (hnd : (S.slots.map TimeSlot.id).Nodup)
    (hfresh : ∀ t ∈ S.tokens, t.id ≠ S.nextId) :
    (emergencyTargetResolves S doctorId pid = true →
      (TokenAllocator.allocateToken S name .EMERGENCY doctorId pid).1.success = true ∧
      ((TokenAllocator.allocateToken S name .EMERGENCY doctorId pid).2.getToken S.nextId).map
        (fun t => t.status) = some TokenStatus.ALLOCATED) ∧
    (emergencyTargetResolves S doctorId pid = false →
      (TokenAllocator.allocateToken S name .EMERGENCY doctorId pid).1.success = false ∧
      ((TokenAllocator.allocateToken S name .EMERGENCY doctorId pid).2.getToken S.nextId).map
        (fun t => t.status) = some TokenStatus.WAITLISTED) := by
  cases pid with
  | some p =>
    rw [allocateToken_some_eq]
    cases hp : S.getSlot p with
    | none =>
      constructor
      · intro hres
        simp [emergencyTargetResolves, hp] at hres
      · intro _
        dsimp only
        refine ⟨rfl, ?_⟩
        rw [Store.getToken_updateToken_self
          (getToken_postCreate_new S name .EMERGENCY doctorId hfresh) rfl]
        rfl
    | some sl =>
      have hslid : sl.id = p := Store.getSlot_id hp
      have hsl2 : (postCreate S name .EMERGENCY doctorId).getSlot sl.id = some sl := by
        rw [getSlot_postCreate, hslid]
        exact hp
      have htok2 : (postCreate S name .EMERGENCY doctorId).getToken
          (newToken S name .EMERGENCY doctorId).id = some (newToken S name .EMERGENCY doctorId) :=
        getToken_postCreate_new S name .EMERGENCY doctorId hfresh
      constructor
      · intro _
        dsimp only
        exact allocateToSlot_emergency_success rfl hsl2 htok2
      · intro hres
        simp [emergencyTargetResolves, hp] at hres
  | none =>
    rw [allocateToken_none_eq]
    cases hb : SlotManager.findBestAvailableSlot S doctorId with
    | none =>
      constructor
      · intro hres
        simp [emergencyTargetResolves, hb] at hres
      · intro _
        dsimp only
        refine ⟨rfl, ?_⟩
        rw [Store.getToken_updateToken_self
          (getToken_postCreate_new S name .EMERGENCY doctorId hfresh) rfl]
        rfl
    | some bs =>
      obtain ⟨hmem, _, _⟩ := findBestAvailableSlot_spec hb
      have hsl2 : (postCreate S name .EMERGENCY doctorId).getSlot bs.id = some bs := by
        rw [getSlot_postCreate]
        exact Store.getSlot_of_mem hnd hmem
      have htok2 : (postCreate S name .EMERGENCY doctorId).getToken
          (newToken S name .EMERGENCY doctorId).id = some (newToken S name .EMERGENCY doctorId) :=
        getToken_postCreate_new S name .EMERGENCY doctorId hfresh
      constructor
      · intro _
        dsimp only
        exact allocateToSlot_emergency_success rfl hsl2 htok2
      · intro hres
        simp [emergencyTargetResolves, hb] at hres

/-- Witness for C1 at a concrete input: a store holding one empty slot; the
emergency resolves that slot and the theorem yields the success outcome. -/
theorem emergency_allocation_target_resolution_witness :
    emergencyTargetResolves (emptySlotStore 2) 1 (some 1) = true ∧
    (TokenAllocator.allocateToken (emptySlotStore 2) "E" .EMERGENCY 1 (some 1)).1.success = true :=
  ⟨by decide,
   ((emergency_allocation_target_resolution (emptySlotStore 2) "E" 1 (some 1)
      (by decide) (by decide)).1 (by decide)).1⟩

/-- C10: an allocation request whose preferredSlotId names no stored slot
raises no error (the operation is total); it stores exactly one new token —
WAITLISTED, with no slot reference — returns the failure outcome carrying
the no-available-slots message, and leaves the slot table (hence every
slot's allocatedTokens, waitlist, currentLoad and status) unchanged. -/
theorem allocate_unknown_preferred_slot_safe (S : Store) (name : String)
    (pt : PatientType) (doc pid : Nat)
    (hp : S.getSlot pid = none)
    (hfresh : ∀ t ∈ S.tokens, t.id ≠ S.nextId) :
    TokenAllocator.allocateToken S name pt doc (some pid) =
      ({ success := false, tokenId := S.nextId, message := .noSlots, slotInfo := none },
       { slots := S.slots, tokens := S.tokens ++ [{ id := S.nextId, patientName := name, patientType := pt, priority := getPriorityScore pt, doctorId := doc, slotId := none, status := .WAITLISTED, createdAt := S.now, allocatedAt := none, bumpCount := 0 }], nextId := S.nextId + 1, now := S.now + 1 }) := by
  have hp' : S.slots.find? (fun s => s.id == pid) = none := hp
  have hmap : S.tokens.map (fun t => if t.id == S.nextId then { t with status := TokenStatus.WAITLISTED } else t) = S.tokens := by
    refine map_if_of_not_found _ _ ?_
    rw [List.find?_eq_none]
    intro x hx
    simp [hfresh x hx]
  unfold TokenAllocator.allocateToken
  dsimp only [Store.addToken, Store.getSlot, Store.updateToken]
  rw [hp']
  dsimp only
  rw [List.map_append, hmap]
  dsimp only [List.map_cons, List.map_nil]
  simp only [beq_self_eq_true, if_true]

/-- Witness for C10: allocating with the unknown preferred slot id 7 against
a store holding only slot 1. -/
theorem allocate_unknown_preferred_slot_safe_witness :
    (emptySlotStore 2).getSlot 7 = none ∧
    (TokenAllocator.allocateToken (emptySlotStore 2) "Z" .WALK_IN 1 (some 7)).1.message = Msg.noSlots := by
  refine ⟨by decide, ?_⟩
  rw [allocate_unknown_preferred_slot_safe (emptySlotStore 2) "Z" .WALK_IN 1 7 (by decide) (by decide)]

/-- Outcome of the allocator's waitlist branch: the reported number is the
length of the slot's waitlist after sorted insertion. -/
theorem allocAddToWaitlist_spec {S2 : Store} {token : Token} {sid : Nat}
    {sl : TimeSlot}
    (hsl : S2.getSlot sid = some sl)
    (hres : ∀ w ∈ sl.waitlist ++ [token.id], (S2.getToken w).isSome) :
    ((TokenAllocator.allocAddToWaitlist S2 token sid).1.message =
      Msg.waitlistPosition (sl.waitlist.length + 1)) ∧
    (((TokenAllocator.allocAddToWaitlist S2 token sid).2.getSlot sid).map
      (fun s => s.waitlist.length) = some (sl.waitlist.length + 1)) := by
  have hid : sl.id = sid := Store.getSlot_id hsl
  have hlen : ((sortStable tokenLE ((sl.waitlist ++ [token.id]).filterMap S2.getToken)).map
      (fun t => t.id)).length = sl.waitlist.length + 1 := by
    rw [List.length_map, length_sortStable, length_filterMap_of_isSome hres,
      List.length_append, List.length_cons, List.length_nil]
  unfold TokenAllocator.allocAddToWaitlist
  rw [SlotManager.addToWaitlist_eq token.id hsl]
  have hX : (S2.setSlot sid { sl with waitlist := (sortStable tokenLE ((sl.waitlist ++ [token.id]).filterMap S2.getToken)).map (fun t => t.id) }).getSlot sid = some { sl with waitlist := (sortStable tokenLE ((sl.waitlist ++ [token.id]).filterMap S2.getToken)).map (fun t => t.id) } := by
    refine Store.getSlot_setSlot_self hsl ?_
    exact hid
  have hX2 : ((S2.setSlot sid { sl with waitlist := (sortStable tokenLE ((sl.waitlist ++ [token.id]).filterMap S2.getToken)).map (fun t => t.id) }).updateToken token.id (fun t => { t with status := .WAITLISTED, slotId := some sid })).getSlot sid = some { sl with waitlist := (sortStable tokenLE ((sl.waitlist ++ [token.id]).filterMap S2.getToken)).map (fun t => t.id) } := hX
  dsimp only
  rw [hX2]
  constructor
  · simp only [Option.getD_some]
    rw [hlen]
  · simp only [Option.map, Option.getD_some]
    rw [hlen]

/-- C9 (amended): whenever an allocation request naming a full slot ends on
that slot's waitlist (any non-emergency category; for PAID_PRIORITY, when
no bumpable candidate exists), the outcome reports the *total length* of
the slot's waitlist after the sorted insertion — the previous length plus
one — which coincides with the new token's own 1-based sorted position only
when the token sorts to the back. -/
theorem waitlist_outcome_reports_total_length (S : Store) (name : String)
    (pt : PatientType) (doc p : Nat) (sl : TimeSlot)
    (hsl : S.getSlot p = some sl)
    (hfull : ¬ sl.currentLoad < sl.maxCapacity)
    (hnemg : pt ≠ PatientType.EMERGENCY)
    (hfresh : ∀ t ∈ S.tokens, t.id ≠ S.nextId)
    (hwl : ∀ w ∈ sl.waitlist, (S.getToken w).isSome)
    (hwlfresh : S.nextId ∉ sl.waitlist)
    (hafresh : S.nextId ∉ sl.allocatedTokens)
    (hpaid : pt = PatientType.PAID_PRIORITY →
      (sl.allocatedTokens.filterMap S.getToken).filter (fun t =>
        canBump pt t.patientType && canBeBumped t.bumpCount) = []) :
    ((TokenAllocator.allocateToken S name pt doc (some p)).1.message =
      Msg.waitlistPosition (sl.waitlist.length + 1)) ∧
    (((TokenAllocator.allocateToken S name pt doc (some p)).2.getSlot p).map
      (fun s => s.waitlist.length) = some (sl.waitlist.length + 1)) := by
  have hid : sl.id = p := Store.getSlot_id hsl
  have hsl2 : (postCreate S name pt doc).getSlot sl.id = some sl := by
    rw [getSlot_postCreate, hid]
    exact hsl
  have hres : ∀ w ∈ sl.waitlist ++ [(newToken S name pt doc).id],
      ((postCreate S name pt doc).getToken w).isSome := by
    intro w hw
    rcases List.mem_append.mp hw with hw | hw
    · have hwne : S.nextId ≠ w := fun he => hwlfresh (he ▸ hw)
      rw [getToken_postCreate_old S name pt doc hwne]
      exact hwl w hw
    · simp only [List.mem_singleton] at hw
      subst hw
      have hsome : ((postCreate S name pt doc).getToken S.nextId).isSome = true := by
        rw [getToken_postCreate_new S name pt doc hfresh]
        rfl
      exact hsome
  have hcap : SlotManager.hasCapacity (postCreate S name pt doc) sl.id = false := by
    unfold SlotManager.hasCapacity
    rw [hsl2]
    simp [hfull]
  have hmain := allocAddToWaitlist_spec hsl2 hres
  rw [allocateToken_some_eq, hsl]
  dsimp only
  unfold TokenAllocator.allocateToSlot
  rw [hsl2]
  dsimp only
  rw [if_neg (show ¬(SlotManager.hasCapacity (postCreate S name pt doc) sl.id = true) from by simp [hcap])]
  rw [if_neg (show ¬((newToken S name pt doc).patientType = PatientType.EMERGENCY) from hnemg)]
  by_cases hppt : pt = PatientType.PAID_PRIORITY
  · rw [if_pos (show (newToken S name pt doc).patientType = PatientType.PAID_PRIORITY from hppt)]
    have hcands : (sl.allocatedTokens.filterMap (postCreate S name pt doc).getToken).filter
        (fun t => canBump (newToken S name pt doc).patientType t.patientType &&
          canBeBumped t.bumpCount) = [] := by
      have hfm : sl.allocatedTokens.filterMap (postCreate S name pt doc).getToken =
          sl.allocatedTokens.filterMap S.getToken := by
        refine List.filterMap_congr (fun a ha => ?_)
        exact getToken_postCreate_old S name pt doc (fun he => hafresh (he ▸ ha))
      rw [hfm]
      exact hpaid hppt
    unfold TokenAllocator.tryBumpLowerPriority
    rw [hsl2]
    dsimp only
    rw [hcands]
    simp only [List.getLast?_nil, Bool.false_eq_true, if_false]
    rw [← hid]
    exact hmain
  · rw [if_neg (show ¬((newToken S name pt doc).patientType = PatientType.PAID_PRIORITY) from hppt)]
    rw [← hid]
    exact hmain

/-- Witness for C9 at a concrete input: an ONLINE_BOOKING waitlisted behind
the full capacity-1 slot with a one-element waitlist reports position 2. -/
theorem waitlist_outcome_reports_total_length_witness :
    (TokenAllocator.allocateToken posFixStore "O" .ONLINE_BOOKING 1 (some 1)).1.message =
      Msg.waitlistPosition 2 :=
  (waitlist_outcome_reports_total_length posFixStore "O" .ONLINE_BOOKING 1 1
    { fixtureSlot 1 with currentLoad := 1, allocatedTokens := [10], waitlist := [11] }
    (by decide) (by decide) (by decide) (by decide) (by decide) (by decide)
    (by decide) (by intro h; cases h)).1

/-- Frame: the allocator's waitlist branch touches only the targeted slot. -/
theorem getSlot_allocAddToWaitlist_ne {S : Store} {token : Token} {sid c : Nat}
    (hne : c ≠ sid) :
    ((TokenAllocator.allocAddToWaitlist S token sid).2).getSlot c = S.getSlot c := by
  unfold TokenAllocator.allocAddToWaitlist
  dsimp only
  rw [Store.getSlot_updateToken]
  exact SlotManager.getSlot_addToWaitlist_ne token.id hne

/-- Frame: a bump attempt touches only the targeted slot. -/
theorem getSlot_tryBump_ne {S : Store} {token : Token} {sid c : Nat}
    (hne : c ≠ sid) :
    ((TokenAllocator.tryBumpLowerPriority S token sid).2).getSlot c = S.getSlot c := by
  unfold TokenAllocator.tryBumpLowerPriority
  cases h : S.getSlot sid with
  | none => rfl
  | some sl =>
    dsimp only
    cases hlast : ((sl.allocatedTokens.filterMap S.getToken).filter (fun t =>
        canBump token.patientType t.patientType && canBeBumped t.bumpCount)).getLast? with
    | none => rfl
    | some victim =>
      dsimp only
      rw [Store.getSlot_updateToken]
      rw [SlotManager.getSlot_addTokenToSlot_ne _ hne]
      rw [SlotManager.getSlot_addToWaitlist_ne _ hne]
      rw [Store.getSlot_updateToken]
      exact SlotManager.getSlot_removeTokenFromSlot_ne _ hne

/-- Frame: slot-level dispatch touches only the targeted slot. -/
theorem getSlot_allocateToSlot_ne {S : Store} {token : Token} {sid c : Nat}
    (hne : c ≠ sid) :
    ((TokenAllocator.allocateToSlot S token sid).2).getSlot c = S.getSlot c := by
  unfold TokenAllocator.allocateToSlot
  cases h : S.getSlot sid with
  | none => rfl
  | some sl =>
    dsimp only
    by_cases hcap : SlotManager.hasCapacity S sid = true
    · rw [if_pos hcap]
      dsimp only
      rw [Store.getSlot_updateToken]
      exact SlotManager.getSlot_addTokenToSlot_ne _ hne
    · rw [if_neg hcap]
      by_cases hemg : token.patientType = PatientType.EMERGENCY
      · rw [if_pos hemg]
        unfold TokenAllocator.handleEmergencyAllocation
        dsimp only
        rw [Store.getSlot_updateToken]
        exact SlotManager.getSlot_addTokenToSlot_ne _ hne
      · rw [if_neg hemg]
        by_cases hpaid : token.patientType = PatientType.PAID_PRIORITY
        · rw [if_pos hpaid]
          by_cases hsucc : (TokenAllocator.tryBumpLowerPriority S token sid).1.success = true
          · rw [if_pos hsucc]
            exact getSlot_tryBump_ne hne
          · rw [if_neg hsucc]
            rw [getSlot_allocAddToWaitlist_ne hne]
            exact getSlot_tryBump_ne hne
        · rw [if_neg hpaid]
          exact getSlot_allocAddToWaitlist_ne hne

/-- C7 (amended): a CLOSED slot is never touched by an allocation request
that does not name it as `preferredSlotId`: automatic slot selection skips
CLOSED slots, so the closed slot — its `allocatedTokens`, `currentLoad`,
`waitlist`, and `status` — is exactly unchanged.  (A request that *does*
name the CLOSED slot as its preference can still admit into it; see the
counterexample.) -/
theorem closed_slot_untouched_without_preference (S : Store) (name : String)
    (pt : PatientType) (doc : Nat) (pid : Option Nat) (c : Nat) (cs : TimeSlot)
    (hnd : (S.slots.map TimeSlot.id).Nodup)
    (hc : S.getSlot c = some cs)
    (hcl : cs.status = SlotStatus.CLOSED)
    (hpid : pid ≠ some c) :
    ((TokenAllocator.allocateToken S name pt doc pid).2).getSlot c = some cs := by
  cases pid with
  | some p =>
    have hpc : c ≠ p := fun he => hpid (by rw [he])
    rw [allocateToken_some_eq]
    cases hp : S.getSlot p with
    | none =>
      dsimp only
      rw [Store.getSlot_updateToken]
      exact hc
    | some target =>
      dsimp only
      have htid : target.id = p := Store.getSlot_id hp
      rw [getSlot_allocateToSlot_ne (by rw [htid]; exact hpc)]
      exact hc
  | none =>
    rw [allocateToken_none_eq]
    cases hb : SlotManager.findBestAvailableSlot S doc with
    | none =>
      dsimp only
      rw [Store.getSlot_updateToken]
      exact hc
    | some bs =>
      dsimp only
      obtain ⟨hmem, hncl, _⟩ := findBestAvailableSlot_spec hb
      have hbsne : c ≠ bs.id := by
        intro he
        have h2 : S.getSlot bs.id = some bs := Store.getSlot_of_mem hnd hmem
        rw [← he, hc] at h2
        injection h2 with h2
        exact hncl (h2 ▸ hcl)
      rw [getSlot_allocateToSlot_ne hbsne]
      exact hc

/-- Witness for C7 at a concrete input: with the doctor's only slot CLOSED
and no preference given, allocation leaves the CLOSED slot untouched. -/
theorem closed_slot_untouched_without_preference_witness :
    ((TokenAllocator.allocateToken closedSlotStore "W" .WALK_IN 1 none).2).getSlot 1 =
      some { fixtureSlot 2 with status := .CLOSED } :=
  closed_slot_untouched_without_preference closedSlotStore "W" .WALK_IN 1 none 1
    { fixtureSlot 2 with status := .CLOSED }
    (by decide) (by decide) (by decide) (by decide)

theorem getSlot_isSome_setSlot {S : Store} {sid : Nat} {X : TimeSlot}
    (hX : X.id = sid) (x : Nat) :
    ((S.setSlot sid X).getSlot x).isSome = (S.getSlot x).isSome := by
  by_cases hx : x = sid
  · subst hx
    cases h : S.getSlot x with
    | none =>
      have hm : S.slots.map (fun t => if t.id == x then X else t) = S.slots :=
        map_if_of_not_found _ _ h
      have hSS : S.setSlot x X = S := by
        unfold Store.setSlot
        rw [hm]
      rw [hSS, h]
    | some sl =>
      rw [Store.getSlot_setSlot_self h hX]
      rfl
  · rw [Store.getSlot_setSlot_ne hx hX]

theorem getSlot_isSome_addTokenToSlot (S : Store) (sid tid x : Nat) :
    ((SlotManager.addTokenToSlot S sid tid).getSlot x).isSome = (S.getSlot x).isSome := by
  cases h : S.getSlot sid with
  | none => unfold SlotManager.addTokenToSlot; rw [h]
  | some sl =>
    have hid : sl.id = sid := Store.getSlot_id h
    rw [SlotManager.addTokenToSlot_eq tid h]
    refine getSlot_isSome_setSlot ?_ x
    exact hid

theorem getSlot_isSome_removeTokenFromSlot (S : Store) (sid tid x : Nat) :
    ((SlotManager.removeTokenFromSlot S sid tid).getSlot x).isSome = (S.getSlot x).isSome := by
  cases h : S.getSlot sid with
  | none => unfold SlotManager.removeTokenFromSlot; rw [h]
  | some sl =>
    have hid : sl.id = sid := Store.getSlot_id h
    rw [SlotManager.removeTokenFromSlot_eq tid h]
    refine getSlot_isSome_setSlot ?_ x
    exact hid

theorem getSlot_isSome_removeFromWaitlist (S : Store) (sid tid x : Nat) :
    ((SlotManager.removeFromWaitlist S sid tid).getSlot x).isSome = (S.getSlot x).isSome := by
  cases h : S.getSlot sid with
  | none => unfold SlotManager.removeFromWaitlist; rw [h]
  | some sl =>
    have hid : sl.id = sid := Store.getSlot_id h
    rw [SlotManager.removeFromWaitlist_eq tid h]
    refine getSlot_isSome_setSlot ?_ x
    exact hid

theorem getToken_isSome_updateToken (S : Store) (k : Nat) (f : Token → Token)
    (x : Nat) (hf : ∀ t, (f t).id = t.id) :
    ((S.updateToken k f).getToken x).isSome = (S.getToken x).isSome := by
  by_cases hx : x = k
  · subst hx
    cases h : S.getToken x with
    | none =>
      have hm : S.tokens.map (fun t => if t.id == x then f t else t) = S.tokens :=
        map_if_of_not_found _ _ h
      have hSS : S.updateToken x f = S := by
        unfold Store.updateToken
        rw [hm]
      rw [hSS, h]
    | some tk =>
      rw [Store.getToken_updateToken_self h (hf tk)]
      rfl
  · rw [Store.getToken_updateToken_ne hx hf]

theorem getSlot_updateSlotWith_self {S : Store} {sid : Nat} {v : TimeSlot}
    {g : TimeSlot → TimeSlot} (h : S.getSlot sid = some v) (hg : (g v).id = v.id) :
    (S.updateSlotWith sid g).getSlot sid = some (g v) := by
  have h' : S.slots.find? (fun s => s.id == sid) = some v := h
  show (S.slots.map (fun t => if t.id == sid then g t else t)).find?
    (fun s => s.id == sid) = some (g v)
  exact find?_map_if_self _ g h' (by simp [hg, Store.getSlot_id h])

/-- One redistribution step preserves token and slot presence and increases
redistributed + failed by one exactly when the processed id resolves. -/
theorem redistStep_invariants (src : Nat) (others : List Nat)
    (acc : DelayHandler.RedistributionResult × Store) (tid : Nat) :
    (∀ x, (((DelayHandler.redistStep src others acc tid).2).getToken x).isSome =
      ((acc.2).getToken x).isSome) ∧
    (∀ x, (((DelayHandler.redistStep src others acc tid).2).getSlot x).isSome =
      ((acc.2).getSlot x).isSome) ∧
    ((DelayHandler.redistStep src others acc tid).1.redistributed +
        (DelayHandler.redistStep src others acc tid).1.failed =
      acc.1.redistributed + acc.1.failed +
        (if ((acc.2).getToken tid).isSome then 1 else 0)) := by
  obtain ⟨res, S⟩ := acc
  unfold DelayHandler.redistStep
  dsimp only
  cases h : S.getToken tid with
  | none => simp [h]
  | some tk =>
    cases hf : others.find? (fun sid => SlotManager.hasCapacity S sid) with
    | none =>
      dsimp only
      refine ⟨fun x => rfl, fun x => rfl, ?_⟩
      simp [h]
      omega
    | some target =>
      dsimp only
      refine ⟨fun x => ?_, fun x => ?_, ?_⟩
      · have h1 := getToken_isSome_updateToken
          (SlotManager.addTokenToSlot (SlotManager.removeFromWaitlist
            (SlotManager.removeTokenFromSlot S src tid) src tid) target tid)
          tid (fun t => { t with slotId := some target }) x (fun t => rfl)
        rw [h1, SlotManager.getToken_addTokenToSlot, SlotManager.getToken_removeFromWaitlist,
          SlotManager.getToken_removeTokenFromSlot]
      · rw [show ∀ (T : Store) g, ((T.updateToken tid g).getSlot x) = T.getSlot x from fun T g => rfl]
        rw [getSlot_isSome_addTokenToSlot, getSlot_isSome_removeFromWaitlist,
          getSlot_isSome_removeTokenFromSlot]
      · simp [h]
        omega

/-- Folding the redistribution step over any id list: presence is preserved
and the counters sum to the number of resolvable ids. -/
theorem redist_fold_spec (src : Nat) (others : List Nat) :
    ∀ (tids : List Nat) (acc : DelayHandler.RedistributionResult × Store),
    (∀ x, (((tids.foldl (DelayHandler.redistStep src others) acc).2).getToken x).isSome =
      ((acc.2).getToken x).isSome) ∧
    (∀ x, (((tids.foldl (DelayHandler.redistStep src others) acc).2).getSlot x).isSome =
      ((acc.2).getSlot x).isSome) ∧
    ((tids.foldl (DelayHandler.redistStep src others) acc).1.redistributed +
        (tids.foldl (DelayHandler.redistStep src others) acc).1.failed =
      acc.1.redistributed + acc.1.failed +
        tids.countP (fun tid => ((acc.2).getToken tid).isSome))
  | [], acc => by simp
  | t :: ts, acc => by
    have hstep := redistStep_invariants src others acc t
    have hih := redist_fold_spec src others ts (DelayHandler.redistStep src others acc t)
    simp only [List.foldl_cons]
    refine ⟨fun x => ?_, fun x => ?_, ?_⟩
    · rw [hih.1 x, hstep.1 x]
    · rw [hih.2.1 x, hstep.2.1 x]
    · rw [hih.2.2, hstep.2.2, List.countP_cons]
      have hc : ts.countP (fun tid =>
          (((DelayHandler.redistStep src others acc t).2).getToken tid).isSome) =
          ts.countP (fun tid => ((acc.2).getToken tid).isSome) := by
        refine List.countP_congr (fun a _ => ?_)
        rw [hstep.1 a]
      rw [hc]
      omega

/-- C8: redistributing a known slot (i) unconditionally forces the source
slot's status to CLOSED, even after partial failure, and (ii) accounts for
every processed token: redistributed + failed equals the number of ids on
the snapshot (allocated first, then waitlisted) that resolve in the token
store; and (iii) in Scenario E — three allocated tokens, one sibling slot
with two free seats — exactly 2 are redistributed into the sibling in
first-fit order, 1 fails, and the source ends CLOSED. -/
theorem redistribution_closes_source_and_accounts_all :
    (∀ (S : Store) (sid : Nat) (sl : TimeSlot), S.getSlot sid = some sl →
      ∀ res S', DelayHandler.redistributePatientsFromSlot S sid = some (res, S') →
        ((S'.getSlot sid).map (fun s => s.status) = some SlotStatus.CLOSED) ∧
        (res.redistributed + res.failed =
          (sl.allocatedTokens ++ sl.waitlist).countP (fun tid => (S.getToken tid).isSome))) ∧
    ((DelayHandler.redistributePatientsFromSlot redistStore 1).map
      (fun p => (p.1.redistributed, p.1.failed, p.1.details)) =
        some (2, 1, [(true, 10), (true, 11), (false, 12)])) ∧
    ((DelayHandler.redistributePatientsFromSlot redistStore 1).map
      (fun p => (p.2.getSlot 1).map (fun s => (s.status, s.currentLoad, s.allocatedTokens))) =
        some (some (SlotStatus.CLOSED, 1, [12]))) ∧
    ((DelayHandler.redistributePatientsFromSlot redistStore 1).map
      (fun p => (p.2.getSlot 2).map (fun s => (s.currentLoad, s.allocatedTokens))) =
        some (some (2, [10, 11]))) := by
  refine ⟨?_, by decide, by decide, by decide⟩
  intro S sid sl hsl res S' hred
  unfold DelayHandler.redistributePatientsFromSlot at hred
  rw [hsl] at hred
  dsimp only at hred
  cases hF : (sl.allocatedTokens ++ sl.waitlist).foldl
      (DelayHandler.redistStep sid
        (((S.getSlotsByDoctor sl.doctorId).filter (fun s =>
          s.id != sid && s.status != SlotStatus.CLOSED)).map (fun s => s.id)))
      (⟨0, 0, []⟩, S) with
  | mk res0 S0 =>
    rw [hF] at hred
    dsimp only at hred
    injection hred with hred
    injection hred with hres hS'
    subst hres
    subst hS'
    have hspec := redist_fold_spec sid
      (((S.getSlotsByDoctor sl.doctorId).filter (fun s =>
        s.id != sid && s.status != SlotStatus.CLOSED)).map (fun s => s.id))
      (sl.allocatedTokens ++ sl.waitlist) (⟨0, 0, []⟩, S)
    rw [hF] at hspec
    constructor
    · have hpres : (S0.getSlot sid).isSome = true := by
        rw [hspec.2.1 sid]
        dsimp only
        rw [hsl]
        rfl
      obtain ⟨v, hv⟩ := Option.isSome_iff_exists.mp hpres
      have hupd := @getSlot_updateSlotWith_self S0 sid v
        (fun s => { s with status := SlotStatus.CLOSED }) hv rfl
      rw [hupd]
      rfl
    · have := hspec.2.2
      dsimp only at this
      simpa using this

/-- Witness for C8 at the Scenario E fixture: the universal part applies and
yields the CLOSED source slot. -/
theorem redistribution_closes_source_and_accounts_all_witness :
    (redistStore.getSlot 1).isSome = true ∧
    ((DelayHandler.redistributePatientsFromSlot redistStore 1).map
      (fun p => (p.2.getSlot 1).map (fun s => s.status)) = some (some SlotStatus.CLOSED)) := by
  refine ⟨by decide, ?_⟩
  have h := redistribution_closes_source_and_accounts_all.1 redistStore 1
    { fixtureSlot 3 with currentLoad := 3, allocatedTokens := [10, 11, 12] }
    (by decide)
  cases hred : DelayHandler.redistributePatientsFromSlot redistStore 1 with
  | none => exact absurd hred (by decide)
  | some p =>
    have h2 := h p.1 p.2 (by rw [hred])
    simp [hred, h2.1]

/-- Shared tail of cancellation and no-show on an allocated token: evicting
`tid` from its slot and promoting the waitlist head `w0` leaves the head
ALLOCATED in the slot, the load as it was, the head appended to the
allocated list and removed from the waitlist. -/
theorem remove_then_promote_spec (S1 : Store) (tid sid w0 : Nat) (sl : TimeSlot)
    (rest : List Nat) (h0 : Token)
    (hsl : S1.getSlot sid = some sl)
    (hw : sl.waitlist = w0 :: rest)
    (hw0 : S1.getToken w0 = some h0)
    (hmem : tid ∈ sl.allocatedTokens)
    (hndA : sl.allocatedTokens.Nodup)
    (hload : sl.currentLoad = sl.allocatedTokens.length)
    (hw0rest : w0 ∉ rest) :
    (((SlotManager.promoteFromWaitlist (SlotManager.removeTokenFromSlot S1 sid tid) sid).2.getToken w0).map
      (fun t => (t.status, t.slotId)) = some (TokenStatus.ALLOCATED, some sid)) ∧
    (((SlotManager.promoteFromWaitlist (SlotManager.removeTokenFromSlot S1 sid tid) sid).2.getSlot sid).map
      (fun s => (s.currentLoad, s.allocatedTokens, s.waitlist)) =
      some (sl.currentLoad, sl.allocatedTokens.filter (fun id => id ≠ tid) ++ [w0], rest)) := by
  have hid : sl.id = sid := Store.getSlot_id hsl
  have hh0id : h0.id = w0 := Store.getToken_id hw0
  subst hh0id
  rw [SlotManager.removeTokenFromSlot_eq tid hsl]
  rw [hw]
  have hX : (S1.setSlot sid { sl with allocatedTokens := sl.allocatedTokens.filter (fun id => id ≠ tid), currentLoad := (sl.allocatedTokens.filter (fun id => id ≠ tid)).length, waitlist := h0.id :: rest }).getSlot sid = some { sl with allocatedTokens := sl.allocatedTokens.filter (fun id => id ≠ tid), currentLoad := (sl.allocatedTokens.filter (fun id => id ≠ tid)).length, waitlist := h0.id :: rest } := by
    refine Store.getSlot_setSlot_self hsl ?_
    exact hid
  unfold SlotManager.promoteFromWaitlist SlotManager.getNextFromWaitlist
  rw [hX]
  dsimp only
  rw [Store.getToken_setSlot h0.id, hw0]
  dsimp only
  rw [SlotManager.removeFromWaitlist_eq h0.id hX]
  dsimp only
  have hY : ((S1.setSlot sid { sl with allocatedTokens := sl.allocatedTokens.filter (fun id => id ≠ tid), currentLoad := (sl.allocatedTokens.filter (fun id => id ≠ tid)).length, waitlist := h0.id :: rest }).setSlot sid { sl with allocatedTokens := sl.allocatedTokens.filter (fun id => id ≠ tid), currentLoad := (sl.allocatedTokens.filter (fun id => id ≠ tid)).length, waitlist := (h0.id :: rest).filter (fun id => id ≠ h0.id) }).getSlot sid = some { sl with allocatedTokens := sl.allocatedTokens.filter (fun id => id ≠ tid), currentLoad := (sl.allocatedTokens.filter (fun id => id ≠ tid)).length, waitlist := (h0.id :: rest).filter (fun id => id ≠ h0.id) } := by
    refine Store.getSlot_setSlot_self hX ?_
    exact hid
  rw [SlotManager.addTokenToSlot_eq h0.id hY]
  dsimp only
  have hZ : (((S1.setSlot sid { sl with allocatedTokens := sl.allocatedTokens.filter (fun id => id ≠ tid), currentLoad := (sl.allocatedTokens.filter (fun id => id ≠ tid)).length, waitlist := h0.id :: rest }).setSlot sid { sl with allocatedTokens := sl.allocatedTokens.filter (fun id => id ≠ tid), currentLoad := (sl.allocatedTokens.filter (fun id => id ≠ tid)).length, waitlist := (h0.id :: rest).filter (fun id => id ≠ h0.id) }).setSlot sid { sl with allocatedTokens := sl.allocatedTokens.filter (fun id => id ≠ tid) ++ [h0.id], currentLoad := (sl.allocatedTokens.filter (fun id => id ≠ tid) ++ [h0.id]).length, waitlist := (h0.id :: rest).filter (fun id => id ≠ h0.id) }).getSlot sid = some { sl with allocatedTokens := sl.allocatedTokens.filter (fun id => id ≠ tid) ++ [h0.id], currentLoad := (sl.allocatedTokens.filter (fun id => id ≠ tid) ++ [h0.id]).length, waitlist := (h0.id :: rest).filter (fun id => id ≠ h0.id) } := by
    refine Store.getSlot_setSlot_self hY ?_
    exact hid
  have hlen : (sl.allocatedTokens.filter (fun id => id ≠ tid) ++ [h0.id]).length = sl.currentLoad := by
    rw [List.length_append, List.length_cons, List.length_nil, hload]
    exact length_filter_ne_of_mem hndA hmem
  have hwl : (h0.id :: rest).filter (fun id => id ≠ h0.id) = rest :=
    filter_ne_cons_self hw0rest
  constructor
  · have htk : (((S1.setSlot sid { sl with allocatedTokens := sl.allocatedTokens.filter (fun id => id ≠ tid), currentLoad := (sl.allocatedTokens.filter (fun id => id ≠ tid)).length, waitlist := h0.id :: rest }).setSlot sid { sl with allocatedTokens := sl.allocatedTokens.filter (fun id => id ≠ tid), currentLoad := (sl.allocatedTokens.filter (fun id => id ≠ tid)).length, waitlist := (h0.id :: rest).filter (fun id => id ≠ h0.id) }).setSlot sid { sl with allocatedTokens := sl.allocatedTokens.filter (fun id => id ≠ tid) ++ [h0.id], currentLoad := (sl.allocatedTokens.filter (fun id => id ≠ tid) ++ [h0.id]).length, waitlist := (h0.id :: rest).filter (fun id => id ≠ h0.id) }).getToken h0.id = some h0 := hw0
    rw [Store.getToken_updateToken_self htk rfl]
    rfl
  · rw [show ∀ (T : Store) g, ((T.updateToken h0.id g).getSlot sid) = T.getSlot sid from fun T g => rfl]
    rw [hZ]
    dsimp only [Option.map]
    rw [hwl, hlen]

theorem tokenLE_refl (t : Token) : tokenLE t t = true := by
  unfold tokenLE compareTokenPriority
  simp

/-- In a comparator-sorted waitlist the resolved head is least. -/
theorem head_least_of_sorted {S : Store} {sl : TimeSlot} {w0 : Nat}
    {rest : List Nat} {h0 : Token}
    (hw : sl.waitlist = w0 :: rest)
    (hw0 : S.getToken w0 = some h0)
    (hsort : List.Pairwise (fun a b => tokenLE a b = true) (sl.waitlist.filterMap S.getToken)) :
    ∀ u ∈ sl.waitlist.filterMap S.getToken, tokenLE h0 u = true := by
  rw [hw, List.filterMap_cons_some hw0] at hsort ⊢
  intro u hu
  rcases List.mem_cons.mp hu with rfl | hu
  · exact tokenLE_refl u
  · exact (List.pairwise_cons.mp hsort).1 u hu

/-- C5: cancelling or no-showing an ALLOCATED token whose slot has a
non-empty waitlist promotes exactly the waitlist head `w0` — it becomes
ALLOCATED in that same slot — the slot's currentLoad is unchanged (one out,
one in: the allocated list loses the cancelled token and gains exactly the
head), the waitlist shrinks by exactly its head, and the head is least
under the priority comparator (score descending, then creation time
ascending) among the resolved waitlisted tokens. -/
theorem cancel_or_noShow_promotes_waitlist_head (S : Store) (tid sid w0 : Nat)
    (tok : Token) (sl : TimeSlot) (rest : List Nat) (h0 : Token)
    (htok : S.getToken tid = some tok)
    (hst : tok.status = TokenStatus.ALLOCATED)
    (hsid : tok.slotId = some sid)
    (hsl : S.getSlot sid = some sl)
    (hw : sl.waitlist = w0 :: rest)
    (hw0 : S.getToken w0 = some h0)
    (hw0tid : w0 ≠ tid)
    (hmem : tid ∈ sl.allocatedTokens)
    (hndA : sl.allocatedTokens.Nodup)
    (hload : sl.currentLoad = sl.allocatedTokens.length)
    (hw0rest : w0 ∉ rest)
    (hsort : List.Pairwise (fun a b => tokenLE a b = true) (sl.waitlist.filterMap S.getToken)) :
    ((TokenAllocator.cancelToken S tid).map (fun pr => pr.1.success) = some true) ∧
    ((TokenAllocator.cancelToken S tid).map (fun pr =>
      (pr.2.getToken w0).map (fun t => (t.status, t.slotId))) =
      some (some (TokenStatus.ALLOCATED, some sid))) ∧
    ((TokenAllocator.cancelToken S tid).map (fun pr =>
      (pr.2.getSlot sid).map (fun s => (s.currentLoad, s.allocatedTokens, s.waitlist))) =
      some (some (sl.currentLoad, sl.allocatedTokens.filter (fun id => id ≠ tid) ++ [w0], rest))) ∧
    ((TokenAllocator.markNoShow S tid).map (fun pr => pr.1.success) = some true) ∧
    ((TokenAllocator.markNoShow S tid).map (fun pr =>
      (pr.2.getToken w0).map (fun t => (t.status, t.slotId))) =
      some (some (TokenStatus.ALLOCATED, some sid))) ∧
    ((TokenAllocator.markNoShow S tid).map (fun pr =>
      (pr.2.getSlot sid).map (fun s => (s.currentLoad, s.allocatedTokens, s.waitlist))) =
      some (some (sl.currentLoad, sl.allocatedTokens.filter (fun id => id ≠ tid) ++ [w0], rest))) ∧
    (∀ u ∈ sl.waitlist.filterMap S.getToken, tokenLE h0 u = true) := by
  have hncl : ¬(tok.status = TokenStatus.CANCELLED) := by
    rw [hst]
    exact fun h => nomatch h
  have hS1sl : (S.updateToken tid (fun t => { t with status := TokenStatus.CANCELLED })).getSlot sid = some sl := hsl
  have hS1w0 : (S.updateToken tid (fun t => { t with status := TokenStatus.CANCELLED })).getToken w0 = some h0 := by
    rw [@Store.getToken_updateToken_ne S tid w0 (fun t => { t with status := TokenStatus.CANCELLED }) hw0tid (fun t => rfl)]
    exact hw0
  have hcancel := remove_then_promote_spec
    (S.updateToken tid (fun t => { t with status := TokenStatus.CANCELLED }))
    tid sid w0 sl rest h0 hS1sl hw hS1w0 hmem hndA hload hw0rest
  have hS2sl : (S.updateToken tid (fun t => { t with status := TokenStatus.NO_SHOW })).getSlot sid = some sl := hsl
  have hS2w0 : (S.updateToken tid (fun t => { t with status := TokenStatus.NO_SHOW })).getToken w0 = some h0 := by
    rw [@Store.getToken_updateToken_ne S tid w0 (fun t => { t with status := TokenStatus.NO_SHOW }) hw0tid (fun t => rfl)]
    exact hw0
  have hnoshow := remove_then_promote_spec
    (S.updateToken tid (fun t => { t with status := TokenStatus.NO_SHOW }))
    tid sid w0 sl rest h0 hS2sl hw hS2w0 hmem hndA hload hw0rest
  unfold TokenAllocator.cancelToken TokenAllocator.markNoShow
  rw [htok]
  dsimp only
  rw [if_neg hncl]
  rw [hsid]
  dsimp only
  rw [if_pos hst]
  simp only [Option.map_some', Option.some.injEq]
  exact ⟨trivial, hcancel.1, hcancel.2, trivial, hnoshow.1, hnoshow.2,
    head_least_of_sorted hw hw0 hsort⟩

/-- Witness for C5 at a concrete input: cancelling the allocated walk-in 10
in the full capacity-1 slot promotes the waitlisted token 11. -/
theorem cancel_or_noShow_promotes_waitlist_head_witness :
    ((TokenAllocator.cancelToken posFixStore 10).map (fun pr => pr.1.success) = some true) ∧
    ((TokenAllocator.cancelToken posFixStore 10).map (fun pr =>
      (pr.2.getToken 11).map (fun t => (t.status, t.slotId))) =
      some (some (TokenStatus.ALLOCATED, some 1))) :=
  ⟨(cancel_or_noShow_promotes_waitlist_head posFixStore 10 1 11 walkInTok
      { fixtureSlot 1 with currentLoad := 1, allocatedTokens := [10], waitlist := [11] }
      [] waitingWalkIn (by decide) (by decide) (by decide) (by decide) (by decide)
      (by decide) (by decide) (by decide) (by decide) (by decide) (by decide)
      (by decide)).1,
   (cancel_or_noShow_promotes_waitlist_head posFixStore 10 1 11 walkInTok
      { fixtureSlot 1 with currentLoad := 1, allocatedTokens := [10], waitlist := [11] }
      [] waitingWalkIn (by decide) (by decide) (by decide) (by decide) (by decide)
      (by decide) (by decide) (by decide) (by decide) (by decide) (by decide)
      (by decide)).2.1⟩

/-- C6: the bump procedure evicts a token only when `canBump` holds for it
and its bumpCount is below 2 at eviction time; the evicted token is the
last qualifying candidate in the slot's allocation order; after the bump it
carries bumpCount + 1, status WAITLISTED, no slot reference, and sits on
the same slot's waitlist, while the bumping token is admitted ALLOCATED
into that slot; with no qualifying candidate the bump fails and the store
is untouched. -/
theorem bump_eviction_invariant (S : Store) (token : Token) (sid : Nat) (sl : TimeSlot)
    (hsl : S.getSlot sid = some sl)
    (htok : S.getToken token.id = some token)
    (hta : token.id ∉ sl.allocatedTokens) :
    (((sl.allocatedTokens.filterMap S.getToken).filter (fun t => canBump token.patientType t.patientType && canBeBumped t.bumpCount)).getLast? = none →
      TokenAllocator.tryBumpLowerPriority S token sid = ({ success := false, tokenId := token.id, message := .noBumpable }, S)) ∧
    (∀ victim, ((sl.allocatedTokens.filterMap S.getToken).filter (fun t => canBump token.patientType t.patientType && canBeBumped t.bumpCount)).getLast? = some victim →
      canBump token.patientType victim.patientType = true ∧
      victim.bumpCount < 2 ∧
      victim.id ∈ sl.allocatedTokens ∧
      (TokenAllocator.tryBumpLowerPriority S token sid).1.success = true ∧
      (((TokenAllocator.tryBumpLowerPriority S token sid).2.getToken victim.id).map (fun t => (t.status, t.slotId, t.bumpCount)) =
        some (TokenStatus.WAITLISTED, none, victim.bumpCount + 1)) ∧
      (∃ s', (TokenAllocator.tryBumpLowerPriority S token sid).2.getSlot sid = some s' ∧ victim.id ∈ s'.waitlist ∧
        token.id ∈ s'.allocatedTokens) ∧
      (((TokenAllocator.tryBumpLowerPriority S token sid).2.getToken token.id).map (fun t => (t.status, t.slotId)) =
        some (TokenStatus.ALLOCATED, some sid))) := by
  have hid : sl.id = sid := Store.getSlot_id hsl
  constructor
  · intro hnone
    unfold TokenAllocator.tryBumpLowerPriority
    rw [hsl]
    dsimp only
    rw [hnone]
  · intro victim hvic
    have hvmem2 : victim ∈ ((sl.allocatedTokens.filterMap S.getToken).filter (fun t => canBump token.patientType t.patientType && canBeBumped t.bumpCount)) := List.mem_of_getLast?_eq_some hvic
    have hfil := List.mem_filter.mp hvmem2
    have hpred := hfil.2
    rw [Bool.and_eq_true] at hpred
    have hA : canBump token.patientType victim.patientType = true := hpred.1
    have hB : victim.bumpCount < 2 := by
      have := hpred.2
      unfold canBeBumped at this
      simpa using this
    obtain ⟨vid, hvidmem, hvidget⟩ := List.mem_filterMap.mp hfil.1
    have hvid : victim.id = vid := Store.getToken_id hvidget
    have hC : victim.id ∈ sl.allocatedTokens := by rw [hvid]; exact hvidmem
    have hvnetok : victim.id ≠ token.id := fun he => hta (he ▸ hC)
    have hvtok : S.getToken victim.id = some victim := by rw [hvid]; exact hvidget
    have hX2 : (((S.setSlot sid { sl with allocatedTokens := sl.allocatedTokens.filter (fun id => id ≠ victim.id), currentLoad := (sl.allocatedTokens.filter (fun id => id ≠ victim.id)).length }).updateToken victim.id (fun t => { t with status := TokenStatus.WAITLISTED, slotId := none, allocatedAt := none, bumpCount := victim.bumpCount + 1 }))).getSlot sid = some { sl with allocatedTokens := sl.allocatedTokens.filter (fun id => id ≠ victim.id), currentLoad := (sl.allocatedTokens.filter (fun id => id ≠ victim.id)).length } := by
      refine Store.getSlot_setSlot_self hsl ?_
      exact hid
    have hvic2 : (((S.setSlot sid { sl with allocatedTokens := sl.allocatedTokens.filter (fun id => id ≠ victim.id), currentLoad := (sl.allocatedTokens.filter (fun id => id ≠ victim.id)).length }).updateToken victim.id (fun t => { t with status := TokenStatus.WAITLISTED, slotId := none, allocatedAt := none, bumpCount := victim.bumpCount + 1 }))).getToken victim.id = some ((fun t => { t with status := TokenStatus.WAITLISTED, slotId := none, allocatedAt := none, bumpCount := victim.bumpCount + 1 }) victim) :=
      Store.getToken_updateToken_self (show (S.setSlot sid { sl with allocatedTokens := sl.allocatedTokens.filter (fun id => id ≠ victim.id), currentLoad := (sl.allocatedTokens.filter (fun id => id ≠ victim.id)).length }).getToken victim.id = some victim from hvtok) rfl
    have hX3 : ((((S.setSlot sid { sl with allocatedTokens := sl.allocatedTokens.filter (fun id => id ≠ victim.id), currentLoad := (sl.allocatedTokens.filter (fun id => id ≠ victim.id)).length }).updateToken victim.id (fun t => { t with status := TokenStatus.WAITLISTED, slotId := none, allocatedAt := none, bumpCount := victim.bumpCount + 1 })).setSlot sid { sl with allocatedTokens := sl.allocatedTokens.filter (fun id => id ≠ victim.id), currentLoad := (sl.allocatedTokens.filter (fun id => id ≠ victim.id)).length, waitlist := (sortStable tokenLE ((sl.waitlist ++ [victim.id]).filterMap (((S.setSlot sid { sl with allocatedTokens := sl.allocatedTokens.filter (fun id => id ≠ victim.id), currentLoad := (sl.allocatedTokens.filter (fun id => id ≠ victim.id)).length }).updateToken victim.id (fun t => { t with status := TokenStatus.WAITLISTED, slotId := none, allocatedAt := none, bumpCount := victim.bumpCount + 1 }))).getToken)).map (fun t => t.id) })).getSlot sid = some { sl with allocatedTokens := sl.allocatedTokens.filter (fun id => id ≠ victim.id), currentLoad := (sl.allocatedTokens.filter (fun id => id ≠ victim.id)).length, waitlist := (sortStable tokenLE ((sl.waitlist ++ [victim.id]).filterMap (((S.setSlot sid { sl with allocatedTokens := sl.allocatedTokens.filter (fun id => id ≠ victim.id), currentLoad := (sl.allocatedTokens.filter (fun id => id ≠ victim.id)).length }).updateToken victim.id (fun t => { t with status := TokenStatus.WAITLISTED, slotId := none, allocatedAt := none, bumpCount := victim.bumpCount + 1 }))).getToken)).map (fun t => t.id) } := by
      refine Store.getSlot_setSlot_self hX2 ?_
      exact hid
    have hS4tok : (((((S.setSlot sid { sl with allocatedTokens := sl.allocatedTokens.filter (fun id => id ≠ victim.id), currentLoad := (sl.allocatedTokens.filter (fun id => id ≠ victim.id)).length }).updateToken victim.id (fun t => { t with status := TokenStatus.WAITLISTED, slotId := none, allocatedAt := none, bumpCount := victim.bumpCount + 1 })).setSlot sid { sl with allocatedTokens := sl.allocatedTokens.filter (fun id => id ≠ victim.id), currentLoad := (sl.allocatedTokens.filter (fun id => id ≠ victim.id)).length, waitlist := (sortStable tokenLE ((sl.waitlist ++ [victim.id]).filterMap (((S.setSlot sid { sl with allocatedTokens := sl.allocatedTokens.filter (fun id => id ≠ victim.id), currentLoad := (sl.allocatedTokens.filter (fun id => id ≠ victim.id)).length }).updateToken victim.id (fun t => { t with status := TokenStatus.WAITLISTED, slotId := none, allocatedAt := none, bumpCount := victim.bumpCount + 1 }))).getToken)).map (fun t => t.id) }).setSlot sid { sl with allocatedTokens := sl.allocatedTokens.filter (fun id => id ≠ victim.id) ++ [token.id], currentLoad := (sl.allocatedTokens.filter (fun id => id ≠ victim.id) ++ [token.id]).length, waitlist := (sortStable tokenLE ((sl.waitlist ++ [victim.id]).filterMap (((S.setSlot sid { sl with allocatedTokens := sl.allocatedTokens.filter (fun id => id ≠ victim.id), currentLoad := (sl.allocatedTokens.filter (fun id => id ≠ victim.id)).length }).updateToken victim.id (fun t => { t with status := TokenStatus.WAITLISTED, slotId := none, allocatedAt := none, bumpCount := victim.bumpCount + 1 }))).getToken)).map (fun t => t.id) })).getToken token.id = some token := by
      show (((S.setSlot sid { sl with allocatedTokens := sl.allocatedTokens.filter (fun id => id ≠ victim.id), currentLoad := (sl.allocatedTokens.filter (fun id => id ≠ victim.id)).length }).updateToken victim.id (fun t => { t with status := TokenStatus.WAITLISTED, slotId := none, allocatedAt := none, bumpCount := victim.bumpCount + 1 }))).getToken token.id = some token
      rw [@Store.getToken_updateToken_ne (S.setSlot sid { sl with allocatedTokens := sl.allocatedTokens.filter (fun id => id ≠ victim.id), currentLoad := (sl.allocatedTokens.filter (fun id => id ≠ victim.id)).length }) victim.id token.id (fun t => { t with status := TokenStatus.WAITLISTED, slotId := none, allocatedAt := none, bumpCount := victim.bumpCount + 1 }) (Ne.symm hvnetok) (fun t => rfl)]
      exact htok
    have hGtok : ((((((S.setSlot sid { sl with allocatedTokens := sl.allocatedTokens.filter (fun id => id ≠ victim.id), currentLoad := (sl.allocatedTokens.filter (fun id => id ≠ victim.id)).length }).updateToken victim.id (fun t => { t with status := TokenStatus.WAITLISTED, slotId := none, allocatedAt := none, bumpCount := victim.bumpCount + 1 })).setSlot sid { sl with allocatedTokens := sl.allocatedTokens.filter (fun id => id ≠ victim.id), currentLoad := (sl.allocatedTokens.filter (fun id => id ≠ victim.id)).length, waitlist := (sortStable tokenLE ((sl.waitlist ++ [victim.id]).filterMap (((S.setSlot sid { sl with allocatedTokens := sl.allocatedTokens.filter (fun id => id ≠ victim.id), currentLoad := (sl.allocatedTokens.filter (fun id => id ≠ victim.id)).length }).updateToken victim.id (fun t => { t with status := TokenStatus.WAITLISTED, slotId := none, allocatedAt := none, bumpCount := victim.bumpCount + 1 }))).getToken)).map (fun t => t.id) }).setSlot sid { sl with allocatedTokens := sl.allocatedTokens.filter (fun id => id ≠ victim.id) ++ [token.id], currentLoad := (sl.allocatedTokens.filter (fun id => id ≠ victim.id) ++ [token.id]).length, waitlist := (sortStable tokenLE ((sl.waitlist ++ [victim.id]).filterMap (((S.setSlot sid { sl with allocatedTokens := sl.allocatedTokens.filter (fun id => id ≠ victim.id), currentLoad := (sl.allocatedTokens.filter (fun id => id ≠ victim.id)).length }).updateToken victim.id (fun t => { t with status := TokenStatus.WAITLISTED, slotId := none, allocatedAt := none, bumpCount := victim.bumpCount + 1 }))).getToken)).map (fun t => t.id) })).updateToken token.id (fun t => { t with status := TokenStatus.ALLOCATED, slotId := some sid, allocatedAt := some (((((S.setSlot sid { sl with allocatedTokens := sl.allocatedTokens.filter (fun id => id ≠ victim.id), currentLoad := (sl.allocatedTokens.filter (fun id => id ≠ victim.id)).length }).updateToken victim.id (fun t => { t with status := TokenStatus.WAITLISTED, slotId := none, allocatedAt := none, bumpCount := victim.bumpCount + 1 })).setSlot sid { sl with allocatedTokens := sl.allocatedTokens.filter (fun id => id ≠ victim.id), currentLoad := (sl.allocatedTokens.filter (fun id => id ≠ victim.id)).length, waitlist := (sortStable tokenLE ((sl.waitlist ++ [victim.id]).filterMap (((S.setSlot sid { sl with allocatedTokens := sl.allocatedTokens.filter (fun id => id ≠ victim.id), currentLoad := (sl.allocatedTokens.filter (fun id => id ≠ victim.id)).length }).updateToken victim.id (fun t => { t with status := TokenStatus.WAITLISTED, slotId := none, allocatedAt := none, bumpCount := victim.bumpCount + 1 }))).getToken)).map (fun t => t.id) }).setSlot sid { sl with allocatedTokens := sl.allocatedTokens.filter (fun id => id ≠ victim.id) ++ [token.id], currentLoad := (sl.allocatedTokens.filter (fun id => id ≠ victim.id) ++ [token.id]).length, waitlist := (sortStable tokenLE ((sl.waitlist ++ [victim.id]).filterMap (((S.setSlot sid { sl with allocatedTokens := sl.allocatedTokens.filter (fun id => id ≠ victim.id), currentLoad := (sl.allocatedTokens.filter (fun id => id ≠ victim.id)).length }).updateToken victim.id (fun t => { t with status := TokenStatus.WAITLISTED, slotId := none, allocatedAt := none, bumpCount := victim.bumpCount + 1 }))).getToken)).map (fun t => t.id) })).now })).getToken token.id = some ((fun t => { t with status := TokenStatus.ALLOCATED, slotId := some sid, allocatedAt := some (((((S.setSlot sid { sl with allocatedTokens := sl.allocatedTokens.filter (fun id => id ≠ victim.id), currentLoad := (sl.allocatedTokens.filter (fun id => id ≠ victim.id)).length }).updateToken victim.id (fun t => { t with status := TokenStatus.WAITLISTED, slotId := none, allocatedAt := none, bumpCount := victim.bumpCount + 1 })).setSlot sid { sl with allocatedTokens := sl.allocatedTokens.filter (fun id => id ≠ victim.id), currentLoad := (sl.allocatedTokens.filter (fun id => id ≠ victim.id)).length, waitlist := (sortStable tokenLE ((sl.waitlist ++ [victim.id]).filterMap (((S.setSlot sid { sl with allocatedTokens := sl.allocatedTokens.filter (fun id => id ≠ victim.id), currentLoad := (sl.allocatedTokens.filter (fun id => id ≠ victim.id)).length }).updateToken victim.id (fun t => { t with status := TokenStatus.WAITLISTED, slotId := none, allocatedAt := none, bumpCount := victim.bumpCount + 1 }))).getToken)).map (fun t => t.id) }).setSlot sid { sl with allocatedTokens := sl.allocatedTokens.filter (fun id => id ≠ victim.id) ++ [token.id], currentLoad := (sl.allocatedTokens.filter (fun id => id ≠ victim.id) ++ [token.id]).length, waitlist := (sortStable tokenLE ((sl.waitlist ++ [victim.id]).filterMap (((S.setSlot sid { sl with allocatedTokens := sl.allocatedTokens.filter (fun id => id ≠ victim.id), currentLoad := (sl.allocatedTokens.filter (fun id => id ≠ victim.id)).length }).updateToken victim.id (fun t => { t with status := TokenStatus.WAITLISTED, slotId := none, allocatedAt := none, bumpCount := victim.bumpCount + 1 }))).getToken)).map (fun t => t.id) })).now }) token) :=
      Store.getToken_updateToken_self hS4tok rfl
    have hE' : ((((((S.setSlot sid { sl with allocatedTokens := sl.allocatedTokens.filter (fun id => id ≠ victim.id), currentLoad := (sl.allocatedTokens.filter (fun id => id ≠ victim.id)).length }).updateToken victim.id (fun t => { t with status := TokenStatus.WAITLISTED, slotId := none, allocatedAt := none, bumpCount := victim.bumpCount + 1 })).setSlot sid { sl with allocatedTokens := sl.allocatedTokens.filter (fun id => id ≠ victim.id), currentLoad := (sl.allocatedTokens.filter (fun id => id ≠ victim.id)).length, waitlist := (sortStable tokenLE ((sl.waitlist ++ [victim.id]).filterMap (((S.setSlot sid { sl with allocatedTokens := sl.allocatedTokens.filter (fun id => id ≠ victim.id), currentLoad := (sl.allocatedTokens.filter (fun id => id ≠ victim.id)).length }).updateToken victim.id (fun t => { t with status := TokenStatus.WAITLISTED, slotId := none, allocatedAt := none, bumpCount := victim.bumpCount + 1 }))).getToken)).map (fun t => t.id) }).setSlot sid { sl with allocatedTokens := sl.allocatedTokens.filter (fun id => id ≠ victim.id) ++ [token.id], currentLoad := (sl.allocatedTokens.filter (fun id => id ≠ victim.id) ++ [token.id]).length, waitlist := (sortStable tokenLE ((sl.waitlist ++ [victim.id]).filterMap (((S.setSlot sid { sl with allocatedTokens := sl.allocatedTokens.filter (fun id => id ≠ victim.id), currentLoad := (sl.allocatedTokens.filter (fun id => id ≠ victim.id)).length }).updateToken victim.id (fun t => { t with status := TokenStatus.WAITLISTED, slotId := none, allocatedAt := none, bumpCount := victim.bumpCount + 1 }))).getToken)).map (fun t => t.id) })).updateToken token.id (fun t => { t with status := TokenStatus.ALLOCATED, slotId := some sid, allocatedAt := some (((((S.setSlot sid { sl with allocatedTokens := sl.allocatedTokens.filter (fun id => id ≠ victim.id), currentLoad := (sl.allocatedTokens.filter (fun id => id ≠ victim.id)).length }).updateToken victim.id (fun t => { t with status := TokenStatus.WAITLISTED, slotId := none, allocatedAt := none, bumpCount := victim.bumpCount + 1 })).setSlot sid { sl with allocatedTokens := sl.allocatedTokens.filter (fun id => id ≠ victim.id), currentLoad := (sl.allocatedTokens.filter (fun id => id ≠ victim.id)).length, waitlist := (sortStable tokenLE ((sl.waitlist ++ [victim.id]).filterMap (((S.setSlot sid { sl with allocatedTokens := sl.allocatedTokens.filter (fun id => id ≠ victim.id), currentLoad := (sl.allocatedTokens.filter (fun id => id ≠ victim.id)).length }).updateToken victim.id (fun t => { t with status := TokenStatus.WAITLISTED, slotId := none, allocatedAt := none, bumpCount := victim.bumpCount + 1 }))).getToken)).map (fun t => t.id) }).setSlot sid { sl with allocatedTokens := sl.allocatedTokens.filter (fun id => id ≠ victim.id) ++ [token.id], currentLoad := (sl.allocatedTokens.filter (fun id => id ≠ victim.id) ++ [token.id]).length, waitlist := (sortStable tokenLE ((sl.waitlist ++ [victim.id]).filterMap (((S.setSlot sid { sl with allocatedTokens := sl.allocatedTokens.filter (fun id => id ≠ victim.id), currentLoad := (sl.allocatedTokens.filter (fun id => id ≠ victim.id)).length }).updateToken victim.id (fun t => { t with status := TokenStatus.WAITLISTED, slotId := none, allocatedAt := none, bumpCount := victim.bumpCount + 1 }))).getToken)).map (fun t => t.id) })).now })).getToken victim.id = some ((fun t => { t with status := TokenStatus.WAITLISTED, slotId := none, allocatedAt := none, bumpCount := victim.bumpCount + 1 }) victim) := by
      rw [@Store.getToken_updateToken_ne ((((S.setSlot sid { sl with allocatedTokens := sl.allocatedTokens.filter (fun id => id ≠ victim.id), currentLoad := (sl.allocatedTokens.filter (fun id => id ≠ victim.id)).length }).updateToken victim.id (fun t => { t with status := TokenStatus.WAITLISTED, slotId := none, allocatedAt := none, bumpCount := victim.bumpCount + 1 })).setSlot sid { sl with allocatedTokens := sl.allocatedTokens.filter (fun id => id ≠ victim.id), currentLoad := (sl.allocatedTokens.filter (fun id => id ≠ victim.id)).length, waitlist := (sortStable tokenLE ((sl.waitlist ++ [victim.id]).filterMap (((S.setSlot sid { sl with allocatedTokens := sl.allocatedTokens.filter (fun id => id ≠ victim.id), currentLoad := (sl.allocatedTokens.filter (fun id => id ≠ victim.id)).length }).updateToken victim.id (fun t => { t with status := TokenStatus.WAITLISTED, slotId := none, allocatedAt := none, bumpCount := victim.bumpCount + 1 }))).getToken)).map (fun t => t.id) }).setSlot sid { sl with allocatedTokens := sl.allocatedTokens.filter (fun id => id ≠ victim.id) ++ [token.id], currentLoad := (sl.allocatedTokens.filter (fun id => id ≠ victim.id) ++ [token.id]).length, waitlist := (sortStable tokenLE ((sl.waitlist ++ [victim.id]).filterMap (((S.setSlot sid { sl with allocatedTokens := sl.allocatedTokens.filter (fun id => id ≠ victim.id), currentLoad := (sl.allocatedTokens.filter (fun id => id ≠ victim.id)).length }).updateToken victim.id (fun t => { t with status := TokenStatus.WAITLISTED, slotId := none, allocatedAt := none, bumpCount := victim.bumpCount + 1 }))).getToken)).map (fun t => t.id) }) token.id victim.id (fun t => { t with status := TokenStatus.ALLOCATED, slotId := some sid, allocatedAt := some (((((S.setSlot sid { sl with allocatedTokens := sl.allocatedTokens.filter (fun id => id ≠ victim.id), currentLoad := (sl.allocatedTokens.filter (fun id => id ≠ victim.id)).length }).updateToken victim.id (fun t => { t with status := TokenStatus.WAITLISTED, slotId := none, allocatedAt := none, bumpCount := victim.bumpCount + 1 })).setSlot sid { sl with allocatedTokens := sl.allocatedTokens.filter (fun id => id ≠ victim.id), currentLoad := (sl.allocatedTokens.filter (fun id => id ≠ victim.id)).length, waitlist := (sortStable tokenLE ((sl.waitlist ++ [victim.id]).filterMap (((S.setSlot sid { sl with allocatedTokens := sl.allocatedTokens.filter (fun id => id ≠ victim.id), currentLoad := (sl.allocatedTokens.filter (fun id => id ≠ victim.id)).length }).updateToken victim.id (fun t => { t with status := TokenStatus.WAITLISTED, slotId := none, allocatedAt := none, bumpCount := victim.bumpCount + 1 }))).getToken)).map (fun t => t.id) }).setSlot sid { sl with allocatedTokens := sl.allocatedTokens.filter (fun id => id ≠ victim.id) ++ [token.id], currentLoad := (sl.allocatedTokens.filter (fun id => id ≠ victim.id) ++ [token.id]).length, waitlist := (sortStable tokenLE ((sl.waitlist ++ [victim.id]).filterMap (((S.setSlot sid { sl with allocatedTokens := sl.allocatedTokens.filter (fun id => id ≠ victim.id), currentLoad := (sl.allocatedTokens.filter (fun id => id ≠ victim.id)).length }).updateToken victim.id (fun t => { t with status := TokenStatus.WAITLISTED, slotId := none, allocatedAt := none, bumpCount := victim.bumpCount + 1 }))).getToken)).map (fun t => t.id) })).now }) hvnetok (fun t => rfl)]
      exact hvic2
    have hZfinal : ((((((S.setSlot sid { sl with allocatedTokens := sl.allocatedTokens.filter (fun id => id ≠ victim.id), currentLoad := (sl.allocatedTokens.filter (fun id => id ≠ victim.id)).length }).updateToken victim.id (fun t => { t with status := TokenStatus.WAITLISTED, slotId := none, allocatedAt := none, bumpCount := victim.bumpCount + 1 })).setSlot sid { sl with allocatedTokens := sl.allocatedTokens.filter (fun id => id ≠ victim.id), currentLoad := (sl.allocatedTokens.filter (fun id => id ≠ victim.id)).length, waitlist := (sortStable tokenLE ((sl.waitlist ++ [victim.id]).filterMap (((S.setSlot sid { sl with allocatedTokens := sl.allocatedTokens.filter (fun id => id ≠ victim.id), currentLoad := (sl.allocatedTokens.filter (fun id => id ≠ victim.id)).length }).updateToken victim.id (fun t => { t with status := TokenStatus.WAITLISTED, slotId := none, allocatedAt := none, bumpCount := victim.bumpCount + 1 }))).getToken)).map (fun t => t.id) }).setSlot sid { sl with allocatedTokens := sl.allocatedTokens.filter (fun id => id ≠ victim.id) ++ [token.id], currentLoad := (sl.allocatedTokens.filter (fun id => id ≠ victim.id) ++ [token.id]).length, waitlist := (sortStable tokenLE ((sl.waitlist ++ [victim.id]).filterMap (((S.setSlot sid { sl with allocatedTokens := sl.allocatedTokens.filter (fun id => id ≠ victim.id), currentLoad := (sl.allocatedTokens.filter (fun id => id ≠ victim.id)).length }).updateToken victim.id (fun t => { t with status := TokenStatus.WAITLISTED, slotId := none, allocatedAt := none, bumpCount := victim.bumpCount + 1 }))).getToken)).map (fun t => t.id) })).updateToken token.id (fun t => { t with status := TokenStatus.ALLOCATED, slotId := some sid, allocatedAt := some (((((S.setSlot sid { sl with allocatedTokens := sl.allocatedTokens.filter (fun id => id ≠ victim.id), currentLoad := (sl.allocatedTokens.filter (fun id => id ≠ victim.id)).length }).updateToken victim.id (fun t => { t with status := TokenStatus.WAITLISTED, slotId := none, allocatedAt := none, bumpCount := victim.bumpCount + 1 })).setSlot sid { sl with allocatedTokens := sl.allocatedTokens.filter (fun id => id ≠ victim.id), currentLoad := (sl.allocatedTokens.filter (fun id => id ≠ victim.id)).length, waitlist := (sortStable tokenLE ((sl.waitlist ++ [victim.id]).filterMap (((S.setSlot sid { sl with allocatedTokens := sl.allocatedTokens.filter (fun id => id ≠ victim.id), currentLoad := (sl.allocatedTokens.filter (fun id => id ≠ victim.id)).length }).updateToken victim.id (fun t => { t with status := TokenStatus.WAITLISTED, slotId := none, allocatedAt := none, bumpCount := victim.bumpCount + 1 }))).getToken)).map (fun t => t.id) }).setSlot sid { sl with allocatedTokens := sl.allocatedTokens.filter (fun id => id ≠ victim.id) ++ [token.id], currentLoad := (sl.allocatedTokens.filter (fun id => id ≠ victim.id) ++ [token.id]).length, waitlist := (sortStable tokenLE ((sl.waitlist ++ [victim.id]).filterMap (((S.setSlot sid { sl with allocatedTokens := sl.allocatedTokens.filter (fun id => id ≠ victim.id), currentLoad := (sl.allocatedTokens.filter (fun id => id ≠ victim.id)).length }).updateToken victim.id (fun t => { t with status := TokenStatus.WAITLISTED, slotId := none, allocatedAt := none, bumpCount := victim.bumpCount + 1 }))).getToken)).map (fun t => t.id) })).now })).getSlot sid = some { sl with allocatedTokens := sl.allocatedTokens.filter (fun id => id ≠ victim.id) ++ [token.id], currentLoad := (sl.allocatedTokens.filter (fun id => id ≠ victim.id) ++ [token.id]).length, waitlist := (sortStable tokenLE ((sl.waitlist ++ [victim.id]).filterMap (((S.setSlot sid { sl with allocatedTokens := sl.allocatedTokens.filter (fun id => id ≠ victim.id), currentLoad := (sl.allocatedTokens.filter (fun id => id ≠ victim.id)).length }).updateToken victim.id (fun t => { t with status := TokenStatus.WAITLISTED, slotId := none, allocatedAt := none, bumpCount := victim.bumpCount + 1 }))).getToken)).map (fun t => t.id) } := by
      show (((((S.setSlot sid { sl with allocatedTokens := sl.allocatedTokens.filter (fun id => id ≠ victim.id), currentLoad := (sl.allocatedTokens.filter (fun id => id ≠ victim.id)).length }).updateToken victim.id (fun t => { t with status := TokenStatus.WAITLISTED, slotId := none, allocatedAt := none, bumpCount := victim.bumpCount + 1 })).setSlot sid { sl with allocatedTokens := sl.allocatedTokens.filter (fun id => id ≠ victim.id), currentLoad := (sl.allocatedTokens.filter (fun id => id ≠ victim.id)).length, waitlist := (sortStable tokenLE ((sl.waitlist ++ [victim.id]).filterMap (((S.setSlot sid { sl with allocatedTokens := sl.allocatedTokens.filter (fun id => id ≠ victim.id), currentLoad := (sl.allocatedTokens.filter (fun id => id ≠ victim.id)).length }).updateToken victim.id (fun t => { t with status := TokenStatus.WAITLISTED, slotId := none, allocatedAt := none, bumpCount := victim.bumpCount + 1 }))).getToken)).map (fun t => t.id) }).setSlot sid { sl with allocatedTokens := sl.allocatedTokens.filter (fun id => id ≠ victim.id) ++ [token.id], currentLoad := (sl.allocatedTokens.filter (fun id => id ≠ victim.id) ++ [token.id]).length, waitlist := (sortStable tokenLE ((sl.waitlist ++ [victim.id]).filterMap (((S.setSlot sid { sl with allocatedTokens := sl.allocatedTokens.filter (fun id => id ≠ victim.id), currentLoad := (sl.allocatedTokens.filter (fun id => id ≠ victim.id)).length }).updateToken victim.id (fun t => { t with status := TokenStatus.WAITLISTED, slotId := none, allocatedAt := none, bumpCount := victim.bumpCount + 1 }))).getToken)).map (fun t => t.id) })).getSlot sid = some { sl with allocatedTokens := sl.allocatedTokens.filter (fun id => id ≠ victim.id) ++ [token.id], currentLoad := (sl.allocatedTokens.filter (fun id => id ≠ victim.id) ++ [token.id]).length, waitlist := (sortStable tokenLE ((sl.waitlist ++ [victim.id]).filterMap (((S.setSlot sid { sl with allocatedTokens := sl.allocatedTokens.filter (fun id => id ≠ victim.id), currentLoad := (sl.allocatedTokens.filter (fun id => id ≠ victim.id)).length }).updateToken victim.id (fun t => { t with status := TokenStatus.WAITLISTED, slotId := none, allocatedAt := none, bumpCount := victim.bumpCount + 1 }))).getToken)).map (fun t => t.id) }
      refine Store.getSlot_setSlot_self hX3 ?_
      exact hid
    unfold TokenAllocator.tryBumpLowerPriority
    rw [hsl]
    dsimp only
    rw [hvic]
    dsimp only
    rw [SlotManager.removeTokenFromSlot_eq victim.id hsl]
    rw [SlotManager.addToWaitlist_eq victim.id hX2]
    dsimp only
    rw [SlotManager.addTokenToSlot_eq token.id hX3]
    dsimp only
    refine ⟨hA, hB, hC, rfl, ?_, ?_, ?_⟩
    · rw [hE']
      rfl
    · refine ⟨{ sl with allocatedTokens := sl.allocatedTokens.filter (fun id => id ≠ victim.id) ++ [token.id], currentLoad := (sl.allocatedTokens.filter (fun id => id ≠ victim.id) ++ [token.id]).length, waitlist := (sortStable tokenLE ((sl.waitlist ++ [victim.id]).filterMap (((S.setSlot sid { sl with allocatedTokens := sl.allocatedTokens.filter (fun id => id ≠ victim.id), currentLoad := (sl.allocatedTokens.filter (fun id => id ≠ victim.id)).length }).updateToken victim.id (fun t => { t with status := TokenStatus.WAITLISTED, slotId := none, allocatedAt := none, bumpCount := victim.bumpCount + 1 }))).getToken)).map (fun t => t.id) }, hZfinal, ?_, ?_⟩
      · show victim.id ∈ (sortStable tokenLE ((sl.waitlist ++ [victim.id]).filterMap (((S.setSlot sid { sl with allocatedTokens := sl.allocatedTokens.filter (fun id => id ≠ victim.id), currentLoad := (sl.allocatedTokens.filter (fun id => id ≠ victim.id)).length }).updateToken victim.id (fun t => { t with status := TokenStatus.WAITLISTED, slotId := none, allocatedAt := none, bumpCount := victim.bumpCount + 1 }))).getToken)).map (fun t => t.id)
        refine List.mem_map.mpr ⟨(fun t => { t with status := TokenStatus.WAITLISTED, slotId := none, allocatedAt := none, bumpCount := victim.bumpCount + 1 }) victim, ?_, rfl⟩
        refine mem_sortStable.mpr ?_
        refine List.mem_filterMap.mpr ⟨victim.id, ?_, hvic2⟩
        exact List.mem_append_right _ (List.mem_singleton.mpr rfl)
      · show token.id ∈ sl.allocatedTokens.filter (fun id => id ≠ victim.id) ++ [token.id]
        exact List.mem_append_right _ (List.mem_singleton.mpr rfl)
    · rw [hGtok]
      rfl

/-- Witness for C6: in the bump fixture the paid-priority token 12 bumps the
most recently admitted walk-in (token 11), which ends WAITLISTED with no slot
reference and bumpCount 1. -/
theorem bump_eviction_invariant_witness :
    bumpFixStore.getSlot 1 = some bumpSlot ∧
    bumpFixStore.getToken 12 = some bumperTok ∧
    ((TokenAllocator.tryBumpLowerPriority bumpFixStore bumperTok 1).2.getToken 11).map (fun t => (t.status, t.slotId, t.bumpCount)) = some (TokenStatus.WAITLISTED, none, 1) :=
  ⟨by decide, by decide, ((bump_eviction_invariant bumpFixStore bumperTok 1 bumpSlot (by decide) (by decide) (by decide)).2 (seqTok 11) (by decide)).2.2.2.2.1⟩

/-- C9 (counterexample): a FOLLOW_UP (priority 60) is waitlisted behind a
full slot whose waitlist holds one WALK_IN (priority 20); after the sorted
insertion the new token (id 12) sits at 1-based position 1 (waitlist is
[12, 11]), but the outcome reports position 2 — the waitlist length, not
the token's own sorted position. -/
theorem waitlist_position_reports_length_not_rank :
    ((TokenAllocator.allocateToken posFixStore "F" .FOLLOW_UP 1 (some 1)).1.message = Msg.waitlistPosition 2) ∧
    (((TokenAllocator.allocateToken posFixStore "F" .FOLLOW_UP 1 (some 1)).2.getSlot 1).map (fun s => s.waitlist) = some [12, 11]) := by
  exact ⟨by decide, by decide⟩

end OPD
